import Mathlib

/-!
Verification development for the clonehaus organizational-authority engine.

The TypeScript sources are shallowly embedded below:
* pure functions become Lean functions over inductive data types;
* JavaScript strings are modelled as Lean `String` (a list of characters),
  with the handful of string primitives the engine uses (`toLowerCase`,
  `includes`, `replace`, `trim`, `split(/\s+/)`) re-implemented over
  `List Char` so that they evaluate inside the kernel;
* wall-clock reads (`Date.now()`, `new Date().toISOString()`) become an
  explicit `now : Nat` parameter (milliseconds); ISO timestamp strings are
  abstracted as the decimal rendering of that number, and timestamp
  comparisons are carried out on the numbers themselves;
* `Math.random()`-based id suffixes become an explicit `rand : String`
  parameter;
* functions that `throw` return `Except String` values.
-/

/-! ## String primitives (JavaScript semantics over `List Char`) -/

/-- `l₁.isPrefixOf (l₁ ++ l₂)`-style check, written out so that every proof
below is self-contained. Mirrors `List.isPrefixOf`. -/
def charsLeadWith : List Char → List Char → Bool
  | [], _ => true
  | _ :: _, [] => false
  | a :: as, b :: bs => a == b && charsLeadWith as bs

/-- Does `h` contain `n` as a contiguous subsequence? (JS `String.includes`.) -/
def charsContain (h n : List Char) : Bool :=
  charsLeadWith n h ||
    match h with
    | [] => false
    | _ :: t => charsContain t n

/-- JS `hay.includes(needle)`. -/
def strIncludes (hay needle : String) : Bool :=
  charsContain hay.data needle.data

/-- JS `String.prototype.toLowerCase` (ASCII-adequate). -/
def lowerStr (s : String) : String :=
  ⟨s.data.map Char.toLower⟩

/-- Fuel-driven worker for global string replacement (JS `replace(/pat/g, rep)`:
non-overlapping occurrences, scanned left to right). -/
def replGo (pat rep : List Char) : Nat → List Char → List Char
  | _, [] => []
  | 0, l => l
  | fuel + 1, c :: rest =>
    if pat.isPrefixOf (c :: rest) then
      rep ++ replGo pat rep fuel ((c :: rest).drop pat.length)
    else
      c :: replGo pat rep fuel rest

/-- JS `s.replace(/pat/g, rep)` for a literal pattern. -/
def replaceStr (s pat rep : String) : String :=
  if pat.data.isEmpty then s
  else ⟨replGo pat.data rep.data s.data.length s.data⟩

/-- JS `String.prototype.trim`. -/
def trimStr (s : String) : String :=
  ⟨((s.data.dropWhile Char.isWhitespace).reverse.dropWhile Char.isWhitespace).reverse⟩

/-- Split worker: collects maximal runs of non-whitespace characters.
JS `s.split(/\s+/)` differs only by possibly emitting empty-string
fragments, all of which the engine filters away by length. -/
def wordsGo : List Char → List Char → List String
  | acc, [] => if acc.isEmpty then [] else [⟨acc.reverse⟩]
  | acc, c :: rest =>
    if c.isWhitespace then
      (if acc.isEmpty then wordsGo [] rest else ⟨acc.reverse⟩ :: wordsGo [] rest)
    else
      wordsGo (c :: acc) rest

/-- JS `s.split(/\s+/)` modulo empty fragments (see `wordsGo`). -/
def splitWords (s : String) : List String :=
  wordsGo [] s.data

/-- JS falsiness test for a string (`!s` is true exactly on the empty string). -/
def strFalsy (s : String) : Bool :=
  s.data.isEmpty

/-! ## Hierarchy entities (`src/app/data/types.ts`) -/

inductive OrgStatus | DRAFT | LOCKED
deriving DecidableEq, Repr

inductive EscalationBaseline | ALWAYS_AUTO | HUMAN_SENSITIVE | ALWAYS_HUMAN
deriving DecidableEq, Repr

inductive CommunicationPosture | FORMAL | BALANCED | FRIENDLY
deriving DecidableEq, Repr

structure Organization where
  id : String
  name : String
  status : OrgStatus
  authorityCeiling : Int
  globalActions : List String
  escalationBaseline : EscalationBaseline
  communicationPosture : CommunicationPosture
deriving DecidableEq, Repr

inductive DomainStatus | DRAFT | READY
deriving DecidableEq, Repr

structure Domain where
  id : String
  organizationId : String
  name : String
  mission : String
  status : DomainStatus
  authorityCeiling : Int
  allowedActionCategories : List String
  scope : String
  escalationPosture : EscalationBaseline
  constraints : List String
deriving DecidableEq, Repr

inductive ExecutionType | ADVISORY | DECISION | EXECUTION
deriving DecidableEq, Repr

inductive ExecutionSurface | READ | WRITE | EXECUTE
deriving DecidableEq, Repr

inductive EscalationBehavior | AUTO | HUMAN_REQUIRED
deriving DecidableEq, Repr

structure Agent where
  id : String
  domainId : String
  name : String
  role : String
  executionType : ExecutionType
  autonomyLevel : Int
  executionSurface : ExecutionSurface
  escalationBehavior : EscalationBehavior
deriving DecidableEq, Repr

/-! ## Authority derivation engine (`src/logic/authority/deriveAuthority.ts`) -/

inductive HierarchyLevel | ORGANIZATION | DOMAIN | AGENT
deriving DecidableEq, Repr

structure AuthoritySourcePathEntry where
  level : HierarchyLevel
  name : String
  ceiling : Int
deriving DecidableEq, Repr

inductive ReasonImpact | ALLOW | RESTRICT
deriving DecidableEq, Repr

structure AuthorityReasonStep where
  level : HierarchyLevel
  rule : String
  impact : ReasonImpact
  detail : String
deriving DecidableEq, Repr

structure AuthorityResult where
  effectiveAuthorityLevel : Int
  authoritySourcePath : List AuthoritySourcePathEntry
  blockedActions : List String
  reasoning : List AuthorityReasonStep
deriving DecidableEq, Repr

def deriveOrganizationAuthority (org : Organization) : AuthorityResult :=
  let effectiveAuthorityLevel := org.authorityCeiling
  let authoritySourcePath : List AuthoritySourcePathEntry :=
    [{ level := .ORGANIZATION, name := org.name, ceiling := org.authorityCeiling }]
  let blockedActions : List String :=
    (if org.authorityCeiling < 3 then
      ["Blocked: Organization authority ceiling is below maximum (3)"] else []) ++
    (if org.authorityCeiling < 2 then
      ["Blocked: Organization authority ceiling restricts mid-level actions"] else []) ++
    (if org.authorityCeiling < 1 then
      ["Blocked: Organization authority ceiling restricts all non-advisory actions"] else [])
  let reasoning : List AuthorityReasonStep :=
    [{ level := .ORGANIZATION
       rule := "Organization authority ceiling = " ++ toString org.authorityCeiling
       impact := .ALLOW
       detail := "This organization establishes the maximum level of authority available." }]
  { effectiveAuthorityLevel, authoritySourcePath, blockedActions, reasoning }

def deriveDomainAuthority (org : Organization) (domain : Domain) : AuthorityResult :=
  let effectiveAuthorityLevel := min org.authorityCeiling domain.authorityCeiling
  let authoritySourcePath : List AuthoritySourcePathEntry :=
    [{ level := .ORGANIZATION, name := org.name, ceiling := org.authorityCeiling },
     { level := .DOMAIN, name := domain.name, ceiling := domain.authorityCeiling }]
  let blockedActions : List String :=
    (if domain.authorityCeiling < org.authorityCeiling then
      ["Blocked: Domain authority ceiling (" ++ toString domain.authorityCeiling ++
        ") is lower than organization ceiling (" ++ toString org.authorityCeiling ++ ")"]
     else []) ++
    (if effectiveAuthorityLevel < 3 then
      ["Blocked: Effective authority level (" ++ toString effectiveAuthorityLevel ++
        ") restricts high-authority actions"] else []) ++
    (if effectiveAuthorityLevel < 2 then
      ["Blocked: Effective authority level (" ++ toString effectiveAuthorityLevel ++
        ") restricts mid-level actions"] else []) ++
    (if effectiveAuthorityLevel < 1 then
      ["Blocked: Effective authority level (" ++ toString effectiveAuthorityLevel ++
        ") restricts all non-advisory actions"] else [])
  let orgStep : AuthorityReasonStep :=
    { level := .ORGANIZATION
      rule := "Organization authority ceiling = " ++ toString org.authorityCeiling
      impact := .ALLOW
      detail := "This organization allows its domains and agents to operate with full authority." }
  let domainStep : AuthorityReasonStep :=
    if domain.authorityCeiling < org.authorityCeiling then
      { level := .DOMAIN
        rule := "Domain authority ceiling = " ++ toString domain.authorityCeiling
        impact := .RESTRICT
        detail := "This domain limits how much authority its agents can use." }
    else
      { level := .DOMAIN
        rule := "Domain authority ceiling = " ++ toString domain.authorityCeiling
        impact := .ALLOW
        detail := "This domain maintains the organization\x27s authority level." }
  { effectiveAuthorityLevel, authoritySourcePath, blockedActions
    reasoning := [orgStep, domainStep] }

/-- The agent-level reasoning step of `deriveAgentAuthority`, mirroring the
source's record construction followed by the detail/impact conditional chain. -/
def agentReasonStep (org : Organization) (domain : Domain) (agent : Agent)
    (effectiveAuthorityLevel : Int) : AuthorityReasonStep :=
  let rule := "Agent autonomy level = " ++ toString agent.autonomyLevel ++
    ", execution surface = " ++ (match agent.executionSurface with
      | .READ => "READ" | .WRITE => "WRITE" | .EXECUTE => "EXECUTE")
  let baseImpact : ReasonImpact :=
    if agent.autonomyLevel < effectiveAuthorityLevel then .RESTRICT else .ALLOW
  if agent.autonomyLevel < min org.authorityCeiling domain.authorityCeiling then
    { level := .AGENT, rule, impact := baseImpact
      detail := "This agent is configured to operate with limited autonomy." }
  else if agent.executionSurface = .READ then
    { level := .AGENT, rule, impact := .RESTRICT
      detail := "This agent is restricted to reading information." }
  else if agent.executionSurface = .WRITE then
    { level := .AGENT, rule, impact := .RESTRICT
      detail := "This agent can modify information but cannot take direct actions." }
  else if agent.executionType = .ADVISORY then
    { level := .AGENT, rule, impact := .RESTRICT
      detail := "This agent provides recommendations and cannot act independently." }
  else if agent.executionType = .DECISION then
    { level := .AGENT, rule, impact := .RESTRICT
      detail := "This agent can decide what should happen but cannot execute those decisions." }
  else
    { level := .AGENT, rule, impact := baseImpact
      detail := "This agent is permitted to operate within its assigned scope." }

def deriveAgentAuthority (org : Organization) (domain : Domain) (agent : Agent) :
    AuthorityResult :=
  let effectiveAuthorityLevel :=
    min org.authorityCeiling (min domain.authorityCeiling agent.autonomyLevel)
  let authoritySourcePath : List AuthoritySourcePathEntry :=
    [{ level := .ORGANIZATION, name := org.name, ceiling := org.authorityCeiling },
     { level := .DOMAIN, name := domain.name, ceiling := domain.authorityCeiling },
     { level := .AGENT, name := agent.name, ceiling := agent.autonomyLevel }]
  let blockedActions : List String :=
    (if domain.authorityCeiling < org.authorityCeiling then
      ["Blocked: Domain ceiling (" ++ toString domain.authorityCeiling ++
        ") reduces organization ceiling (" ++ toString org.authorityCeiling ++ ")"]
     else []) ++
    (if agent.autonomyLevel < domain.authorityCeiling then
      ["Blocked: Agent autonomy level (" ++ toString agent.autonomyLevel ++
        ") is lower than domain ceiling (" ++ toString domain.authorityCeiling ++ ")"]
     else []) ++
    (if agent.autonomyLevel < org.authorityCeiling then
      ["Blocked: Agent autonomy level (" ++ toString agent.autonomyLevel ++
        ") is lower than organization ceiling (" ++ toString org.authorityCeiling ++ ")"]
     else []) ++
    (if agent.executionSurface = .READ then
      ["Blocked: Agent execution surface is READ-only (no WRITE or EXECUTE)"]
     else if agent.executionSurface = .WRITE then
      ["Blocked: Agent execution surface does not allow EXECUTE actions"]
     else []) ++
    (if agent.executionType = .ADVISORY then
      ["Blocked: Agent execution type is ADVISORY (recommendations only, no direct actions)"]
     else if agent.executionType = .DECISION then
      ["Blocked: Agent execution type is DECISION (can decide but cannot execute)"]
     else []) ++
    (if agent.escalationBehavior = .HUMAN_REQUIRED then
      ["Blocked: Agent requires human approval for escalations (cannot auto-escalate)"]
     else []) ++
    (if effectiveAuthorityLevel < 3 then
      ["Blocked: Effective authority (" ++ toString effectiveAuthorityLevel ++
        ") restricts high-risk operations"] else []) ++
    (if effectiveAuthorityLevel < 2 then
      ["Blocked: Effective authority (" ++ toString effectiveAuthorityLevel ++
        ") restricts moderate-risk operations"] else []) ++
    (if effectiveAuthorityLevel < 1 then
      ["Blocked: Effective authority (" ++ toString effectiveAuthorityLevel ++
        ") restricts all non-advisory operations"] else [])
  let orgStep : AuthorityReasonStep :=
    { level := .ORGANIZATION
      rule := "Organization authority ceiling = " ++ toString org.authorityCeiling
      impact := .ALLOW
      detail := "This organization allows its domains and agents to operate with full authority." }
  let domainStep : AuthorityReasonStep :=
    if domain.authorityCeiling < org.authorityCeiling then
      { level := .DOMAIN
        rule := "Domain authority ceiling = " ++ toString domain.authorityCeiling
        impact := .RESTRICT
        detail := "This domain restricts the scope of actions its agents can perform." }
    else
      { level := .DOMAIN
        rule := "Domain authority ceiling = " ++ toString domain.authorityCeiling
        impact := .ALLOW
        detail := "This domain maintains the organization\x27s level of authority." }
  { effectiveAuthorityLevel, authoritySourcePath, blockedActions
    reasoning := [orgStep, domainStep, agentReasonStep org domain agent effectiveAuthorityLevel] }

/-! ## Do-action derivation engine (`src/logic/authority/deriveDoActions.ts`) -/

inductive DoActionCategory
  | DATA_ACCESS | DATA_MODIFICATION | DECISION_MAKING | EXECUTION
  | ESCALATION | REPORTING | OPERATIONS
deriving DecidableEq, Repr

inductive DoActionState | ALLOWED | RESTRICTED | BLOCKED
deriving DecidableEq, Repr

structure DoAction where
  id : String
  verbPhrase : String
  category : DoActionCategory
  requiredAuthority : Int
  requiredSurface : ExecutionSurface
  state : DoActionState
  reason : String
deriving DecidableEq, Repr

structure DoActionSurface where
  actions : List DoAction
deriving DecidableEq, Repr

structure ActionTemplate where
  id : String
  verbPhrase : String
  category : DoActionCategory
  requiredAuthority : Int
  requiredSurface : ExecutionSurface
deriving DecidableEq, Repr

def getActionTemplatesForRole (role : String) : List ActionTemplate :=
  let roleLower := lowerStr role
  if strIncludes roleLower "support" || strIncludes roleLower "customer" then
    [{ id := "support_view_ticket", verbPhrase := "View customer ticket",
       category := .DATA_ACCESS, requiredAuthority := 0, requiredSurface := .READ },
     { id := "support_reply_inquiry", verbPhrase := "Reply to customer inquiry",
       category := .DATA_MODIFICATION, requiredAuthority := 1, requiredSurface := .WRITE },
     { id := "support_update_status", verbPhrase := "Update ticket status",
       category := .DATA_MODIFICATION, requiredAuthority := 1, requiredSurface := .WRITE },
     { id := "support_escalate", verbPhrase := "Escalate to specialist",
       category := .ESCALATION, requiredAuthority := 1, requiredSurface := .WRITE },
     { id := "support_close_ticket", verbPhrase := "Close support ticket",
       category := .DECISION_MAKING, requiredAuthority := 2, requiredSurface := .WRITE }]
  else if strIncludes roleLower "analyst" || strIncludes roleLower "analytics" then
    [{ id := "analyst_view_data", verbPhrase := "View analytics data",
       category := .DATA_ACCESS, requiredAuthority := 0, requiredSurface := .READ },
     { id := "analyst_export_data", verbPhrase := "Export analytics data",
       category := .DATA_ACCESS, requiredAuthority := 1, requiredSurface := .READ },
     { id := "analyst_generate_report", verbPhrase := "Generate compliance report",
       category := .REPORTING, requiredAuthority := 2, requiredSurface := .WRITE },
     { id := "analyst_schedule_job", verbPhrase := "Schedule analysis job",
       category := .EXECUTION, requiredAuthority := 2, requiredSurface := .EXECUTE },
     { id := "analyst_approve_findings", verbPhrase := "Approve analysis findings",
       category := .DECISION_MAKING, requiredAuthority := 3, requiredSurface := .WRITE }]
  else if strIncludes roleLower "ops" || strIncludes roleLower "operations" ||
      strIncludes roleLower "devops" then
    [{ id := "ops_view_logs", verbPhrase := "View system logs",
       category := .DATA_ACCESS, requiredAuthority := 0, requiredSurface := .READ },
     { id := "ops_update_config", verbPhrase := "Update configuration",
       category := .DATA_MODIFICATION, requiredAuthority := 2, requiredSurface := .WRITE },
     { id := "ops_restart_service", verbPhrase := "Restart service",
       category := .EXECUTION, requiredAuthority := 2, requiredSurface := .EXECUTE },
     { id := "ops_deploy_staging", verbPhrase := "Deploy to staging",
       category := .EXECUTION, requiredAuthority := 2, requiredSurface := .EXECUTE },
     { id := "ops_deploy_production", verbPhrase := "Deploy to production",
       category := .EXECUTION, requiredAuthority := 3, requiredSurface := .EXECUTE }]
  else
    [{ id := "generic_read_info", verbPhrase := "Read information",
       category := .DATA_ACCESS, requiredAuthority := 0, requiredSurface := .READ },
     { id := "generic_update_record", verbPhrase := "Update record",
       category := .DATA_MODIFICATION, requiredAuthority := 1, requiredSurface := .WRITE },
     { id := "generic_make_decision", verbPhrase := "Make autonomous decision",
       category := .DECISION_MAKING, requiredAuthority := 2, requiredSurface := .WRITE },
     { id := "generic_execute_action", verbPhrase := "Execute system action",
       category := .EXECUTION, requiredAuthority := 2, requiredSurface := .EXECUTE },
     { id := "generic_escalate", verbPhrase := "Escalate to human",
       category := .ESCALATION, requiredAuthority := 0, requiredSurface := .READ }]

def surfaceHierarchy : ExecutionSurface → Nat
  | .READ => 1
  | .WRITE => 2
  | .EXECUTE => 3

structure SurfaceCheck where
  allowed : Bool
  reason : String
deriving DecidableEq, Repr

def checkExecutionSurface (required agentSurface : ExecutionSurface) : SurfaceCheck :=
  if surfaceHierarchy agentSurface ≥ surfaceHierarchy required then
    { allowed := true, reason := "" }
  else if required = .WRITE ∧ agentSurface = .READ then
    { allowed := false, reason := "This agent is restricted to reading information." }
  else if required = .EXECUTE ∧ agentSurface ≠ .EXECUTE then
    { allowed := false, reason := "This agent is not configured to execute actions." }
  else
    { allowed := false
      reason := "This action requires a higher execution surface than this agent has." }

def checkExecutionType (category : DoActionCategory) (executionType : ExecutionType) :
    SurfaceCheck :=
  match executionType with
  | .ADVISORY =>
    if category = .DATA_ACCESS ∨ category = .REPORTING then
      { allowed := true, reason := "" }
    else
      { allowed := false
        reason := "This agent provides recommendations and cannot take direct actions." }
  | .DECISION =>
    if category = .EXECUTION ∨ category = .OPERATIONS then
      { allowed := false
        reason := "This agent can decide what should happen but cannot execute decisions." }
    else
      { allowed := true, reason := "" }
  | .EXECUTION => { allowed := true, reason := "" }

structure AuthorityCheck where
  allowed : Bool
  restricted : Bool
  reason : String
deriving DecidableEq, Repr

def checkAuthorityLevel (required effective : Int) : AuthorityCheck :=
  if effective ≥ required then
    { allowed := true, restricted := false, reason := "" }
  else if effective = required - 1 then
    { allowed := false, restricted := true
      reason := "This action requires higher authority than this agent currently has (needs " ++
        toString required ++ ", has " ++ toString effective ++ ")." }
  else
    { allowed := false, restricted := false
      reason := "This action requires authority level " ++ toString required ++
        ", but this agent has level " ++ toString effective ++ "." }

def mkDoAction (t : ActionTemplate) (state : DoActionState) (reason : String) : DoAction :=
  { id := t.id, verbPhrase := t.verbPhrase, category := t.category
    requiredAuthority := t.requiredAuthority, requiredSurface := t.requiredSurface
    state, reason }

def deriveActionState (t : ActionTemplate) (agent : Agent) (authority : AuthorityResult) :
    DoAction :=
  let surfaceCheck := checkExecutionSurface t.requiredSurface agent.executionSurface
  if surfaceCheck.allowed = false then
    mkDoAction t .BLOCKED surfaceCheck.reason
  else
    let typeCheck := checkExecutionType t.category agent.executionType
    if typeCheck.allowed = false then
      mkDoAction t .BLOCKED typeCheck.reason
    else
      let authorityCheck :=
        checkAuthorityLevel t.requiredAuthority authority.effectiveAuthorityLevel
      if authorityCheck.allowed = false then
        mkDoAction t (if authorityCheck.restricted then .RESTRICTED else .BLOCKED)
          authorityCheck.reason
      else
        mkDoAction t .ALLOWED "This agent is permitted to perform this action."

def deriveDoActions (agent : Agent) (authority : AuthorityResult) (_domain : Domain)
    (_organization : Organization) : DoActionSurface :=
  { actions := (getActionTemplatesForRole agent.role).map
      (fun t => deriveActionState t agent authority) }

/-! ## Action-surface derivation (`src/logic/authority/deriveActionSurface.ts`) -/

inductive ActionCategory
  | READ_DATA | WRITE_DATA | MAKE_DECISIONS | EXECUTE_ACTIONS | ESCALATE_HUMAN
deriving DecidableEq, Repr

structure ActionStatus where
  category : ActionCategory
  label : String
  state : DoActionState
  reason : String
deriving DecidableEq, Repr

structure ActionSurface where
  actions : List ActionStatus
deriving DecidableEq, Repr

def deriveReadDataAction (_agent : Agent) (_authority : AuthorityResult) : ActionStatus :=
  { category := .READ_DATA, label := "Read Data", state := .ALLOWED
    reason := "This agent is allowed to view information." }

def deriveWriteDataAction (agent : Agent) (authority : AuthorityResult) : ActionStatus :=
  if agent.executionSurface = .READ then
    { category := .WRITE_DATA, label := "Write Data", state := .BLOCKED
      reason := "This agent is restricted to reading information." }
  else if agent.executionType = .ADVISORY then
    { category := .WRITE_DATA, label := "Write Data", state := .BLOCKED
      reason := "This agent can advise but cannot modify data on its own." }
  else if authority.effectiveAuthorityLevel < 2 then
    { category := .WRITE_DATA, label := "Write Data", state := .RESTRICTED
      reason := "This action is limited by the agent\x27s assigned authority level." }
  else
    { category := .WRITE_DATA, label := "Write Data", state := .ALLOWED
      reason := "This agent is permitted to modify information." }

def deriveMakeDecisionsAction (agent : Agent) (authority : AuthorityResult) : ActionStatus :=
  if agent.executionType = .ADVISORY then
    { category := .MAKE_DECISIONS, label := "Make Decisions", state := .BLOCKED
      reason := "This agent provides recommendations and cannot make decisions independently." }
  else if authority.effectiveAuthorityLevel < 1 then
    { category := .MAKE_DECISIONS, label := "Make Decisions", state := .BLOCKED
      reason := "This agent\x27s authority level does not permit decision-making." }
  else if authority.effectiveAuthorityLevel < 2 then
    { category := .MAKE_DECISIONS, label := "Make Decisions", state := .RESTRICTED
      reason := "This agent can make decisions within a limited scope." }
  else
    { category := .MAKE_DECISIONS, label := "Make Decisions", state := .ALLOWED
      reason := "This agent is permitted to make decisions." }

def deriveExecuteActionsAction (agent : Agent) (authority : AuthorityResult) : ActionStatus :=
  if agent.executionSurface ≠ .EXECUTE then
    { category := .EXECUTE_ACTIONS, label := "Execute Actions", state := .BLOCKED
      reason := "This agent is not configured to take direct actions." }
  else if agent.executionType ≠ .EXECUTION then
    { category := .EXECUTE_ACTIONS, label := "Execute Actions", state := .BLOCKED
      reason := "This agent\x27s role does not include taking direct actions." }
  else if authority.effectiveAuthorityLevel < 3 then
    { category := .EXECUTE_ACTIONS, label := "Execute Actions", state := .RESTRICTED
      reason := "This agent can take actions but only within a limited scope." }
  else
    { category := .EXECUTE_ACTIONS, label := "Execute Actions", state := .ALLOWED
      reason := "This agent is permitted to take direct actions." }

def deriveEscalateHumanAction (agent : Agent) (_authority : AuthorityResult) : ActionStatus :=
  if agent.escalationBehavior = .HUMAN_REQUIRED then
    { category := .ESCALATE_HUMAN, label := "Escalate to Human", state := .ALLOWED
      reason := "Actions at this level require human involvement." }
  else
    { category := .ESCALATE_HUMAN, label := "Escalate to Human", state := .ALLOWED
      reason := "This agent can request human guidance when appropriate." }

def deriveActionSurface (agent : Agent) (authority : AuthorityResult) (_domain : Domain)
    (_organization : Organization) : ActionSurface :=
  { actions :=
      [deriveReadDataAction agent authority,
       deriveWriteDataAction agent authority,
       deriveMakeDecisionsAction agent authority,
       deriveExecuteActionsAction agent authority,
       deriveEscalateHumanAction agent authority] }

/-! ## Runtime verdict derivation (`src/logic/authority/deriveRuntimeVerdict.ts`) -/

inductive VerdictActionCategory | READ | WRITE | DECIDE | EXECUTE | ESCALATE
deriving DecidableEq, Repr

inductive VerdictStatus | ALLOWED | BLOCKED | ESCALATION_REQUIRED
deriving DecidableEq, Repr

inductive VerdictConfidence | HIGH | MEDIUM | LOW
deriving DecidableEq, Repr

structure VerdictSubject where
  agentId : String
  agentName : String
  domainId : String
  organizationId : String
deriving DecidableEq, Repr

structure VerdictAction where
  actionId : String
  actionName : String
  actionCategory : VerdictActionCategory
deriving DecidableEq, Repr

structure VerdictDecision where
  status : VerdictStatus
  confidence : VerdictConfidence
deriving DecidableEq, Repr

inductive ConstraintSource | ORGANIZATION | DOMAIN | AGENT | EAPP | RUNTIME
deriving DecidableEq, Repr

structure AppliedConstraint where
  source : ConstraintSource
  description : String
deriving DecidableEq, Repr

structure VerdictReasoning where
  summary : String
  appliedConstraints : List AppliedConstraint
deriving DecidableEq, Repr

structure VerdictExecution where
  attempted : Bool
  executed : Bool
  executionPath : Option String
deriving DecidableEq, Repr

structure VerdictEscalation where
  required : Bool
  reason : String
  expectedApproverRole : String
deriving DecidableEq, Repr

structure VerdictGuarantees where
  deterministic : Bool
  reversible : Bool
  persisted : Bool
  executable : Bool
deriving DecidableEq, Repr

structure RuntimeVerdict where
  verdictId : String
  evaluatedAt : String
  subject : VerdictSubject
  action : VerdictAction
  decision : VerdictDecision
  reasoning : VerdictReasoning
  execution : VerdictExecution
  escalation : Option VerdictEscalation
  guarantees : VerdictGuarantees
deriving DecidableEq, Repr

/-- `generateVerdictId` embeds `Date.now()` (modelled by `now`) in the id. -/
def generateVerdictId (now : Nat) (agentId actionId : String) : String :=
  "verdict_" ++ agentId ++ "_" ++ actionId ++ "_" ++ toString now

def mapActionCategory (c : DoActionCategory) : VerdictActionCategory :=
  match c with
  | .DATA_ACCESS => .READ
  | .DATA_MODIFICATION => .WRITE
  | .DECISION_MAKING => .DECIDE
  | .EXECUTION => .EXECUTE
  | .OPERATIONS => .EXECUTE
  | .ESCALATION => .ESCALATE
  | .REPORTING => .WRITE

def deriveDecision (doAction : DoAction) : VerdictDecision :=
  if doAction.state = .ALLOWED then
    { status := .ALLOWED, confidence := .HIGH }
  else if doAction.state = .BLOCKED then
    { status := .BLOCKED, confidence := .HIGH }
  else
    { status := .ESCALATION_REQUIRED, confidence := .MEDIUM }

def generateVerdictSummary (doAction : DoAction) (agent : Agent) : String :=
  if doAction.state = .ALLOWED then
    agent.name ++ " is permitted to " ++ lowerStr doAction.verbPhrase ++ "."
  else if doAction.state = .BLOCKED then
    agent.name ++ " cannot " ++ lowerStr doAction.verbPhrase ++ " due to authority restrictions."
  else
    agent.name ++ " would need approval to " ++ lowerStr doAction.verbPhrase ++ "."

def deriveVerdictReasoning (doAction : DoAction) (agent : Agent)
    (authority : AuthorityResult) (domain : Domain) (organization : Organization) :
    VerdictReasoning :=
  let appliedConstraints : List AppliedConstraint :=
    (if organization.authorityCeiling < 3 then
      [{ source := .ORGANIZATION
         description := "This organization limits how much authority its members can exercise." }]
     else []) ++
    (if domain.authorityCeiling < organization.authorityCeiling then
      [{ source := .DOMAIN
         description := "This domain restricts the scope of actions its agents can perform." }]
     else []) ++
    (if agent.autonomyLevel < authority.effectiveAuthorityLevel then
      [{ source := .AGENT
         description := "This agent is configured to operate with limited autonomy." }]
     else []) ++
    (if agent.executionSurface = .READ ∧ doAction.requiredSurface ≠ .READ then
      [{ source := .AGENT
         description := "This agent is restricted to reading information." }]
     else []) ++
    (if agent.executionSurface = .WRITE ∧ doAction.requiredSurface = .EXECUTE then
      [{ source := .AGENT
         description := "This agent can modify information but cannot take direct actions." }]
     else []) ++
    (if agent.executionType = .ADVISORY then
      [{ source := .AGENT
         description := "This agent provides recommendations and cannot act independently." }]
     else []) ++
    (if agent.executionType = .DECISION ∧ doAction.category = .EXECUTION then
      [{ source := .AGENT
         description := "This agent can decide what should happen but cannot execute those decisions." }]
     else []) ++
    [{ source := .RUNTIME
       description := "No execution is permitted in the current system phase." }]
  { summary := generateVerdictSummary doAction agent, appliedConstraints }

def deriveEscalation (_doAction : DoAction) (agent : Agent) (_domain : Domain) :
    VerdictEscalation :=
  { required := true
    reason := "This action requires higher authority than " ++ agent.name ++ " currently has."
    expectedApproverRole :=
      if agent.escalationBehavior = .HUMAN_REQUIRED then "Human Operator"
      else "Domain Administrator" }

def deriveRuntimeVerdict (now : Nat) (agent : Agent) (doAction : DoAction)
    (authority : AuthorityResult) (domain : Domain) (organization : Organization) :
    RuntimeVerdict :=
  let decision := deriveDecision doAction
  { verdictId := generateVerdictId now agent.id doAction.id
    evaluatedAt := toString now
    subject := { agentId := agent.id, agentName := agent.name
                 domainId := domain.id, organizationId := organization.id }
    action := { actionId := doAction.id, actionName := doAction.verbPhrase
                actionCategory := mapActionCategory doAction.category }
    decision
    reasoning := deriveVerdictReasoning doAction agent authority domain organization
    execution := { attempted := true, executed := false, executionPath := none }
    escalation :=
      if decision.status = .ESCALATION_REQUIRED then
        some (deriveEscalation doAction agent domain)
      else none
    guarantees := { deterministic := true, reversible := true
                    persisted := false, executable := false } }

/-! ## Execution readiness derivation (`src/logic/authority/deriveExecutionReadiness.ts`) -/

inductive ExecutionReadinessState
  | NOT_ELIGIBLE | ELIGIBLE_PENDING_APPROVAL | ELIGIBLE_AUTOMATIC | BLOCKED_HARD
deriving DecidableEq, Repr

structure GateResult where
  passed : Bool
  reason : String
deriving DecidableEq, Repr

structure ReadinessGates where
  authorityAlignment : GateResult
  actionSurfaceCompatibility : GateResult
  escalationResolution : GateResult
  personaAlignment : GateResult
deriving DecidableEq, Repr

structure ExecutionReadiness where
  state : ExecutionReadinessState
  gates : ReadinessGates
  summary : String
deriving DecidableEq, Repr

def doActionCategoryName : DoActionCategory → String
  | .DATA_ACCESS => "DATA_ACCESS"
  | .DATA_MODIFICATION => "DATA_MODIFICATION"
  | .DECISION_MAKING => "DECISION_MAKING"
  | .EXECUTION => "EXECUTION"
  | .ESCALATION => "ESCALATION"
  | .REPORTING => "REPORTING"
  | .OPERATIONS => "OPERATIONS"

def surfaceName : ExecutionSurface → String
  | .READ => "READ"
  | .WRITE => "WRITE"
  | .EXECUTE => "EXECUTE"

def evaluateAuthorityGate (doAction : DoAction) (authority : AuthorityResult)
    (domain : Domain) (_organization : Organization) : GateResult :=
  if authority.effectiveAuthorityLevel < doAction.requiredAuthority then
    { passed := false
      reason := "This action requires authority level " ++ toString doAction.requiredAuthority ++
        ", but effective authority is " ++ toString authority.effectiveAuthorityLevel ++ "." }
  else if (domain.allowedActionCategories.contains (doActionCategoryName doAction.category)) = false then
    { passed := false
      reason := "This domain does not permit " ++ doActionCategoryName doAction.category ++
        " actions." }
  else
    { passed := true
      reason := "Authority level meets requirements and domain permits this action category." }

def evaluateActionSurfaceGate (doAction : DoAction) (agent : Agent) : GateResult :=
  if surfaceHierarchy agent.executionSurface < surfaceHierarchy doAction.requiredSurface then
    { passed := false
      reason := "This action requires " ++ surfaceName doAction.requiredSurface ++
        " surface, but agent has " ++ surfaceName agent.executionSurface ++ "." }
  else
    { passed := true, reason := "Agent execution surface supports this action." }

/-- The source also tests `!agent.escalationBehavior`; for a well-typed
`Agent` that union field is always a non-empty string, so the test is
never taken and is omitted here. -/
def evaluateEscalationGate (verdict : RuntimeVerdict) (_agent : Agent) : GateResult :=
  match verdict.escalation with
  | some esc =>
    if strFalsy esc.expectedApproverRole then
      { passed := false
        reason := "Escalation is required but no approver role is specified." }
    else
      { passed := true
        reason := "Escalation policy defined: " ++ esc.expectedApproverRole ++
          " approval required." }
  | none =>
    { passed := true, reason := "No escalation required for this action." }

def evaluatePersonaGate (_doAction : DoAction) (_agent : Agent) : GateResult :=
  { passed := true, reason := "Persona alignment check passed (EAPP integration pending)." }

def deriveReadinessState (gates : ReadinessGates) (verdict : RuntimeVerdict) :
    ExecutionReadinessState :=
  let allPassed := gates.authorityAlignment.passed && gates.actionSurfaceCompatibility.passed &&
    gates.escalationResolution.passed && gates.personaAlignment.passed
  let anyFailed := !gates.authorityAlignment.passed || !gates.actionSurfaceCompatibility.passed ||
    !gates.escalationResolution.passed || !gates.personaAlignment.passed
  if gates.authorityAlignment.passed = false ∧ gates.actionSurfaceCompatibility.passed = false then
    .BLOCKED_HARD
  else if anyFailed then
    .NOT_ELIGIBLE
  else if allPassed then
    (match verdict.escalation with
     | some _ => .ELIGIBLE_PENDING_APPROVAL
     | none => .ELIGIBLE_AUTOMATIC)
  else
    .NOT_ELIGIBLE

def generateReadinessSummary (state : ExecutionReadinessState) (_gates : ReadinessGates) :
    String :=
  match state with
  | .ELIGIBLE_AUTOMATIC =>
    "All preconditions are satisfied. This action could run autonomously if execution were enabled."
  | .ELIGIBLE_PENDING_APPROVAL =>
    "Execution is possible, but only with explicit human approval. This action cannot run autonomously."
  | .BLOCKED_HARD =>
    "Critical preconditions failed. Execution is not possible and is explicitly forbidden."
  | .NOT_ELIGIBLE =>
    "This agent is not permitted to perform this action. Execution is not appropriate in this context."

def deriveExecutionReadiness (agent : Agent) (doAction : DoAction)
    (authority : AuthorityResult) (verdict : RuntimeVerdict) (domain : Domain)
    (organization : Organization) : ExecutionReadiness :=
  let gates : ReadinessGates :=
    { authorityAlignment := evaluateAuthorityGate doAction authority domain organization
      actionSurfaceCompatibility := evaluateActionSurfaceGate doAction agent
      escalationResolution := evaluateEscalationGate verdict agent
      personaAlignment := evaluatePersonaGate doAction agent }
  let state := deriveReadinessState gates verdict
  { state, gates, summary := generateReadinessSummary state gates }

/-! ## Staging and approval (`src/logic/staging/stagedActions.ts`) -/

inductive StagingState | STAGED | REJECTED | APPROVED
deriving DecidableEq, Repr

inductive AlignmentStatus | ALIGNED | PENDING
deriving DecidableEq, Repr

structure PersonaSnapshot where
  alignmentStatus : AlignmentStatus
  note : String
deriving DecidableEq, Repr

structure StagedAction where
  id : String
  stagedAt : String
  stagedBy : String
  agentId : String
  agentName : String
  actionId : String
  actionName : String
  runtimeVerdict : RuntimeVerdict
  executionReadiness : ExecutionReadiness
  authorityResult : AuthorityResult
  personaAlignment : PersonaSnapshot
  state : StagingState
  stateChangedAt : Option String
  stateChangedBy : Option String
  rejectionReason : Option String
  isOutOfDate : Bool
deriving DecidableEq, Repr

def canStageAction (_doAction : DoAction) (executionReadiness : ExecutionReadiness) : Bool :=
  if executionReadiness.state = .BLOCKED_HARD then false else true

/-- `JSON.parse(JSON.stringify(x))` deep copies are the identity on these
plain-data values, so the snapshots are stored as given. -/
def createStagedAction (now : Nat) (rand : String) (agent : Agent) (doAction : DoAction)
    (verdict : RuntimeVerdict) (readiness : ExecutionReadiness)
    (authority : AuthorityResult) : StagedAction :=
  { id := "staged-" ++ toString now ++ "-" ++ rand
    stagedAt := toString now
    stagedBy := "current-user"
    agentId := agent.id
    agentName := agent.name
    actionId := doAction.id
    actionName := doAction.verbPhrase
    runtimeVerdict := verdict
    executionReadiness := readiness
    authorityResult := authority
    personaAlignment := { alignmentStatus := .ALIGNED
                          note := "Persona alignment check pending LPS integration" }
    state := .STAGED
    stateChangedAt := none
    stateChangedBy := none
    rejectionReason := none
    isOutOfDate := false }

inductive ApprovalScope | INSTANCE_ONLY | POLICY_CHANGE
deriving DecidableEq, Repr

structure ApprovalIntent where
  id : String
  createdAt : String
  createdBy : String
  stagedActionId : String
  scope : ApprovalScope
  justification : String
  conditions : Option String
  agentName : String
  actionName : String
  runtimeVerdictSnapshot : RuntimeVerdict
  executionReadinessSnapshot : ExecutionReadiness
deriving DecidableEq, Repr

def createApprovalIntent (now : Nat) (rand : String) (stagedAction : StagedAction)
    (scope : ApprovalScope) (justification : String) (conditions : Option String) :
    Except String ApprovalIntent :=
  if strFalsy justification || strFalsy (trimStr justification) then
    .error "Justification is required for approval"
  else
    .ok
      { id := "approval-" ++ toString now ++ "-" ++ rand
        createdAt := toString now
        createdBy := "current-user"
        stagedActionId := stagedAction.id
        scope
        justification := trimStr justification
        conditions := conditions.bind (fun c =>
          if strFalsy (trimStr c) then none else some (trimStr c))
        agentName := stagedAction.agentName
        actionName := stagedAction.actionName
        runtimeVerdictSnapshot := stagedAction.runtimeVerdict
        executionReadinessSnapshot := stagedAction.executionReadiness }

/-! ## Policy change proposals (`src/logic/staging/stagedActions.ts`, Phase 4C) -/

inductive ProposalScope | ORGANIZATION | DOMAIN | AGENT
deriving DecidableEq, Repr

inductive ProposedChangeType
  | AUTHORITY_ADJUSTMENT | ACTION_PERMISSION | ESCALATION_RULE | NONE
deriving DecidableEq, Repr

inductive ProposalStatus | PROPOSED | CONFIRMED | DISMISSED
deriving DecidableEq, Repr

structure PolicyState where
  description : String
  technicalDetails : Option String
deriving DecidableEq, Repr

structure PolicyChangeProposal where
  proposalId : String
  sourceApprovalIntentId : String
  createdAt : String
  scope : ProposalScope
  targetId : String
  targetName : String
  proposedChangeType : ProposedChangeType
  beforeState : PolicyState
  afterState : PolicyState
  humanJustification : String
  systemReasoning : String
  status : ProposalStatus
  confirmedAt : Option String
  dismissedAt : Option String
  learnedPolicyId : Option String
deriving DecidableEq, Repr

def analyzeRequiredChange (readiness : ExecutionReadiness) (verdict : RuntimeVerdict) :
    ProposedChangeType :=
  if readiness.state = .ELIGIBLE_AUTOMATIC then
    .NONE
  else if readiness.state = .NOT_ELIGIBLE ∧
      readiness.gates.authorityAlignment.passed = false then
    .AUTHORITY_ADJUSTMENT
  else if readiness.state = .ELIGIBLE_PENDING_APPROVAL then
    .ACTION_PERMISSION
  else if readiness.state = .BLOCKED_HARD ∧
      readiness.gates.escalationResolution.passed = false then
    .ESCALATION_RULE
  else if verdict.decision.confidence = .LOW then
    .ESCALATION_RULE
  else
    .NONE

def generateSystemReasoning (changeType : ProposedChangeType)
    (agentName actionName : String) : String :=
  match changeType with
  | .AUTHORITY_ADJUSTMENT =>
    "If applied, this would adjust " ++ agentName ++ "\x27s authority level to permit " ++
      actionName ++ ". This change would affect future similar actions by raising the agent\x27s baseline authority for this action category."
  | .ACTION_PERMISSION =>
    "If applied, this would add " ++ actionName ++ " to " ++ agentName ++
      "\x27s permitted action set without requiring human approval. This would enable autonomous execution for this specific action type in similar contexts."
  | .ESCALATION_RULE =>
    "If applied, this would modify escalation policy to reduce or remove escalation requirements for " ++
      actionName ++ " in similar contexts. This would allow the agent to proceed with greater autonomy."
  | .NONE =>
    "No policy change is required. The current system configuration already supports this action for autonomous execution. The approval was instance-specific only."

structure PolicyStatePair where
  before : PolicyState
  after : PolicyState
deriving DecidableEq, Repr

def generatePolicyStates (changeType : ProposedChangeType)
    (agentName actionName : String) : PolicyStatePair :=
  match changeType with
  | .AUTHORITY_ADJUSTMENT =>
    { before := { description := agentName ++ " has limited authority for " ++ actionName
                  technicalDetails :=
                    some "Current authority level insufficient for autonomous execution" }
      after := { description := agentName ++ " would have elevated authority for " ++ actionName
                 technicalDetails :=
                   some "Authority level would be increased to permit autonomous execution" } }
  | .ACTION_PERMISSION =>
    { before := { description := actionName ++ " requires human approval"
                  technicalDetails :=
                    some "Action not in permitted set for autonomous execution" }
      after := { description := actionName ++ " would be permitted autonomously"
                 technicalDetails := some "Action would be added to permitted set" } }
  | .ESCALATION_RULE =>
    { before := { description := actionName ++ " requires escalation in this context"
                  technicalDetails :=
                    some "Current escalation policy blocks autonomous execution" }
      after := { description := actionName ++ " would not require escalation in similar contexts"
                 technicalDetails :=
                   some "Escalation policy would be relaxed for this action type" } }
  | .NONE =>
    { before := { description := agentName ++ " can execute " ++ actionName ++ " autonomously"
                  technicalDetails := some "No policy barriers exist" }
      after := { description := "No change needed"
                 technicalDetails := some "System already supports this action" } }

def derivePolicyChangeProposal (now : Nat) (rand : String)
    (approvalIntent : ApprovalIntent) : Option PolicyChangeProposal :=
  if approvalIntent.scope ≠ .POLICY_CHANGE then
    none
  else
    let changeType := analyzeRequiredChange approvalIntent.executionReadinessSnapshot
      approvalIntent.runtimeVerdictSnapshot
    let states := generatePolicyStates changeType approvalIntent.agentName
      approvalIntent.actionName
    some
      { proposalId := "proposal-" ++ toString now ++ "-" ++ rand
        sourceApprovalIntentId := approvalIntent.id
        createdAt := toString now
        scope := .AGENT
        targetId := approvalIntent.agentName
        targetName := approvalIntent.agentName
        proposedChangeType := changeType
        beforeState := states.before
        afterState := states.after
        humanJustification := approvalIntent.justification
        systemReasoning := generateSystemReasoning changeType approvalIntent.agentName
          approvalIntent.actionName
        status := .PROPOSED
        confirmedAt := none
        dismissedAt := none
        learnedPolicyId := none }

/-! ## Policy learning system (`src/logic/policy/learnedPolicy.ts`) -/

inductive LPSLayer | IDENTITY | MANDATE | AUTHORITY | CAPABILITY | POLICY | EXECUTION
deriving DecidableEq, Repr

def lpsLayerName : LPSLayer → String
  | .IDENTITY => "IDENTITY"
  | .MANDATE => "MANDATE"
  | .AUTHORITY => "AUTHORITY"
  | .CAPABILITY => "CAPABILITY"
  | .POLICY => "POLICY"
  | .EXECUTION => "EXECUTION"

inductive PolicyStatus | ACTIVE | UNDER_REVIEW | EXPIRED | OVERRIDDEN
deriving DecidableEq, Repr

/-- Milliseconds per day (`24 * 60 * 60 * 1000`). -/
def msPerDay : Nat := 86400000

/-- Policy lifecycle; timestamps are clock milliseconds (see header note). -/
structure PolicyLifecycle where
  policyId : String
  createdAt : Nat
  lastReviewedAt : Option Nat
  reviewIntervalDays : Nat
  nextReviewDate : Nat
  expiresAt : Nat
  status : PolicyStatus
deriving DecidableEq, Repr

structure ValidationCheck where
  passed : Bool
  reason : String
deriving DecidableEq, Repr

structure EAPPChecks where
  declaredIntent : ValidationCheck
  boundedAuthority : ValidationCheck
  explainability : ValidationCheck
  driftPrevention : ValidationCheck
deriving DecidableEq, Repr

structure EAPPValidation where
  passed : Bool
  checks : EAPPChecks
  violations : List String
deriving DecidableEq, Repr

structure ValidationResult where
  valid : Bool
  reason : String
  violations : List String
deriving DecidableEq, Repr

inductive AuthorityDirection | EXPAND | MAINTAIN | RESTRICT
deriving DecidableEq, Repr

structure MonotonicityValidation where
  valid : Bool
  direction : AuthorityDirection
  reason : String
  violations : List String
deriving DecidableEq, Repr

inductive PolicyConstraintType
  | ALWAYS_REQUIRE_APPROVAL | RESTRICT_TO_DOMAIN | NEVER_ALLOW_AUTONOMOUS
  | REDUCE_AUTHORITY_LEVEL
deriving DecidableEq, Repr

structure LearnedPolicyConstraint where
  type : PolicyConstraintType
  description : String
  technicalDetails : String
  affectedScope : String
deriving DecidableEq, Repr

structure LearnedPolicy where
  policyId : String
  learnedAt : String
  learnedBy : String
  sourceApprovalIntentId : String
  sourcePolicyProposalId : String
  affectedLayers : List LPSLayer
  primaryLayer : LPSLayer
  constraint : LearnedPolicyConstraint
  beforeState : PolicyState
  afterState : PolicyState
  humanJustification : String
  systemReasoning : String
  eappValidation : EAPPValidation
  lpsValidation : ValidationResult
  monotonicityValidation : MonotonicityValidation
  explanation : String
  lifecycle : PolicyLifecycle
deriving DecidableEq, Repr

def checkDeclaredIntent (proposal : PolicyChangeProposal) : ValidationCheck :=
  if strFalsy proposal.humanJustification || strFalsy (trimStr proposal.humanJustification) then
    { passed := false
      reason := "No human justification provided. Declared intent requires written reasoning." }
  else if (trimStr proposal.humanJustification).data.length < 10 then
    { passed := false
      reason := "Justification is too brief. Declared intent requires substantive explanation." }
  else
    { passed := true, reason := "Human justification provided with clear intent." }

def checkBoundedAuthority (proposal : PolicyChangeProposal) : ValidationCheck :=
  if proposal.proposedChangeType = .AUTHORITY_ADJUSTMENT ∧
      strIncludes proposal.afterState.description "would have elevated" = true then
    { passed := false
      reason := "Policy would increase authority. Bounded authority requires monotonic restriction." }
  else
    { passed := true, reason := "Policy does not increase authority." }

def checkExplainability (proposal : PolicyChangeProposal) : ValidationCheck :=
  if strFalsy proposal.beforeState.description || strFalsy proposal.afterState.description then
    { passed := false
      reason := "Before/after states missing. Explainability requires clear state comparison." }
  else if strFalsy proposal.systemReasoning || strFalsy (trimStr proposal.systemReasoning) then
    { passed := false
      reason := "System reasoning missing. Explainability requires generated explanation." }
  else
    { passed := true, reason := "Policy includes what changed, why, and impact." }

def checkDriftPrevention (proposal : PolicyChangeProposal) : ValidationCheck :=
  if proposal.status ≠ .CONFIRMED then
    { passed := false
      reason := "Policy not explicitly confirmed. Drift prevention requires human confirmation." }
  else
    { passed := true
      reason := "Policy explicitly confirmed by human, no automatic propagation." }

def validateEAPPCompliance (proposal : PolicyChangeProposal) : EAPPValidation :=
  let checks : EAPPChecks :=
    { declaredIntent := checkDeclaredIntent proposal
      boundedAuthority := checkBoundedAuthority proposal
      explainability := checkExplainability proposal
      driftPrevention := checkDriftPrevention proposal }
  let violations : List String :=
    (if checks.declaredIntent.passed then [] else
      ["declaredIntent: " ++ checks.declaredIntent.reason]) ++
    (if checks.boundedAuthority.passed then [] else
      ["boundedAuthority: " ++ checks.boundedAuthority.reason]) ++
    (if checks.explainability.passed then [] else
      ["explainability: " ++ checks.explainability.reason]) ++
    (if checks.driftPrevention.passed then [] else
      ["driftPrevention: " ++ checks.driftPrevention.reason])
  { passed := checks.declaredIntent.passed && checks.boundedAuthority.passed &&
      checks.explainability.passed && checks.driftPrevention.passed
    checks, violations }

def determineAffectedLayers (proposal : PolicyChangeProposal) : List LPSLayer :=
  [LPSLayer.POLICY] ++
    (match proposal.proposedChangeType with
     | .AUTHORITY_ADJUSTMENT => [LPSLayer.AUTHORITY]
     | .ACTION_PERMISSION => [LPSLayer.CAPABILITY]
     | .ESCALATION_RULE => []
     | .NONE => [])

def validateLPSBoundaries (proposal : PolicyChangeProposal) : ValidationResult :=
  let affectedLayers := determineAffectedLayers proposal
  let violations : List String :=
    (if affectedLayers.contains LPSLayer.IDENTITY then
      ["Cannot modify IDENTITY layer. Core values are immutable."] else []) ++
    (if affectedLayers.contains LPSLayer.MANDATE then
      ["Cannot modify MANDATE layer. Purpose is immutable."] else []) ++
    (if affectedLayers.contains LPSLayer.EXECUTION then
      ["Cannot modify EXECUTION layer. Execution is out of scope for Phase 5A."] else []) ++
    (if affectedLayers.contains LPSLayer.AUTHORITY then
      (let isRestrictive := proposal.proposedChangeType ≠ .AUTHORITY_ADJUSTMENT ∨
        strIncludes proposal.afterState.description "elevated" = false
       if isRestrictive then [] else
        ["AUTHORITY layer changes must be restrictive. Cannot elevate authority."])
     else [])
  { valid := violations.isEmpty
    reason := if violations.isEmpty then "Policy respects LPS layer boundaries."
      else "Policy violates LPS layer boundaries."
    violations }

def expandIndicators : List String :=
  ["elevated authority", "would have elevated", "increased to permit",
   "permitted autonomously", "not require escalation", "greater autonomy"]

def restrictIndicators : List String :=
  ["requires approval", "limited authority", "requires escalation",
   "not permitted", "restricted to"]

def determineAuthorityDirection (proposal : PolicyChangeProposal) : AuthorityDirection :=
  let after := lowerStr proposal.afterState.description
  if expandIndicators.any (fun i => strIncludes after i) then
    .EXPAND
  else if restrictIndicators.any (fun i => strIncludes after i) then
    .RESTRICT
  else
    .MAINTAIN

def authorityDirectionName : AuthorityDirection → String
  | .EXPAND => "EXPAND"
  | .MAINTAIN => "MAINTAIN"
  | .RESTRICT => "RESTRICT"

def validateMonotonicity (proposal : PolicyChangeProposal) : MonotonicityValidation :=
  let direction := determineAuthorityDirection proposal
  let violations : List String :=
    if direction = .EXPAND then
      ["Policy would increase authority. Monotonic constraint violated.",
       "Learned policies can only restrict or maintain authority, never expand."]
    else []
  let valid := direction ≠ .EXPAND
  { valid, direction
    reason :=
      if valid then "Authority direction is " ++ authorityDirectionName direction ++ " (valid)."
      else "Authority direction is " ++ authorityDirectionName direction ++ " (invalid)."
    violations }

def generatePolicyExplanation (policy : LearnedPolicy) : String :=
  let otherLayers := policy.affectedLayers.filter (fun l => l ≠ policy.primaryLayer)
  String.intercalate "\n"
    (["## What Changed", policy.constraint.description, "",
      "**Before:** " ++ policy.beforeState.description,
      "**After:** " ++ policy.afterState.description, "",
      "## Why This Was Learned", policy.humanJustification, "",
      "## What Would Be Different", policy.systemReasoning, "",
      "## Affected System Layers",
      "Primary Layer: " ++ lpsLayerName policy.primaryLayer] ++
     (if policy.affectedLayers.length > 1 then
       ["Additional Layers: " ++ String.intercalate ", " (otherLayers.map lpsLayerName)]
      else []) ++
     ["",
      "## Validation",
      "✓ EAPP Compliance: " ++ (if policy.eappValidation.passed then "Passed" else "Failed"),
      "✓ LPS Boundaries: " ++ (if policy.lpsValidation.valid then "Respected" else "Violated"),
      "✓ Monotonicity: " ++ (if policy.monotonicityValidation.valid then
        authorityDirectionName policy.monotonicityValidation.direction else "Failed")])

def deriveConstraint (proposal : PolicyChangeProposal) : LearnedPolicyConstraint :=
  let scopeName := match proposal.scope with
    | .ORGANIZATION => "ORGANIZATION"
    | .DOMAIN => "DOMAIN"
    | .AGENT => "AGENT"
  match proposal.proposedChangeType with
  | .AUTHORITY_ADJUSTMENT =>
    { type := .REDUCE_AUTHORITY_LEVEL
      description := "Reduced authority for " ++ proposal.targetName
      technicalDetails := "Authority ceiling lowered for specified action category"
      affectedScope := scopeName ++ ": " ++ proposal.targetName }
  | .ACTION_PERMISSION =>
    { type := .ALWAYS_REQUIRE_APPROVAL
      description := "Always require human approval for this action"
      technicalDetails := "Action added to approval-required set"
      affectedScope := scopeName ++ ": " ++ proposal.targetName }
  | .ESCALATION_RULE =>
    { type := .NEVER_ALLOW_AUTONOMOUS
      description := "Block autonomous execution in this context"
      technicalDetails := "Escalation policy enforced for this action category"
      affectedScope := scopeName ++ ": " ++ proposal.targetName }
  | .NONE =>
    { type := .ALWAYS_REQUIRE_APPROVAL
      description := "Policy constraint details unavailable"
      technicalDetails := "Manual review recommended"
      affectedScope := scopeName ++ ": " ++ proposal.targetName }

/-- `createPolicyLifecycle`; the source defaults are
`reviewIntervalDays = 90` and `expiryDays = 180`, passed explicitly by the
sole caller `deriveLearnedPolicy`. -/
def createPolicyLifecycle (now : Nat) (policyId : String)
    (reviewIntervalDays expiryDays : Nat) : PolicyLifecycle :=
  { policyId
    createdAt := now
    lastReviewedAt := none
    reviewIntervalDays
    nextReviewDate := now + reviewIntervalDays * msPerDay
    expiresAt := now + expiryDays * msPerDay
    status := .ACTIVE }

def generateLearnedPolicyId (now : Nat) (rand : String) : String :=
  "learned-" ++ toString now ++ "-" ++ rand

def deriveLearnedPolicy (now : Nat) (rand : String) (proposal : PolicyChangeProposal) :
    Option LearnedPolicy :=
  if proposal.status ≠ .CONFIRMED then
    none
  else
    let eappValidation := validateEAPPCompliance proposal
    if eappValidation.passed = false then
      none
    else
      let lpsValidation := validateLPSBoundaries proposal
      if lpsValidation.valid = false then
        none
      else
        let monotonicityValidation := validateMonotonicity proposal
        if monotonicityValidation.valid = false then
          none
        else
          let policyId := generateLearnedPolicyId now rand
          let policy0 : LearnedPolicy :=
            { policyId
              learnedAt := toString now
              learnedBy := "current-user"
              sourceApprovalIntentId := proposal.sourceApprovalIntentId
              sourcePolicyProposalId := proposal.proposalId
              affectedLayers := determineAffectedLayers proposal
              primaryLayer := .POLICY
              constraint := deriveConstraint proposal
              beforeState := proposal.beforeState
              afterState := proposal.afterState
              humanJustification := proposal.humanJustification
              systemReasoning := proposal.systemReasoning
              eappValidation
              lpsValidation
              monotonicityValidation
              explanation := ""
              lifecycle := createPolicyLifecycle now policyId 90 180 }
          some { policy0 with explanation := generatePolicyExplanation policy0 }

/-- `confirmPolicyProposal`: only valid from PROPOSED; marks the proposal
CONFIRMED and attempts policy learning, recording the learned policy id on
success. The learned policy (appended to the in-memory store by the source)
is returned alongside. -/
def confirmPolicyProposal (now : Nat) (rand : String) (proposal : PolicyChangeProposal) :
    Except String (PolicyChangeProposal × Option LearnedPolicy) :=
  if proposal.status ≠ .PROPOSED then
    .error "Can only confirm PROPOSED proposals"
  else
    let confirmed := { proposal with status := ProposalStatus.CONFIRMED
                                     confirmedAt := some (toString now) }
    match deriveLearnedPolicy now rand confirmed with
    | some policy => .ok ({ confirmed with learnedPolicyId := some policy.policyId }, some policy)
    | none => .ok (confirmed, none)

/-! ## Policy override system (`src/logic/policy/policyOverride.ts`) -/

inductive OverrideScope | INSTANCE_ONLY | DOMAIN | ORGANIZATION
deriving DecidableEq, Repr

structure PolicyOverride where
  overrideId : String
  targetPolicyId : String
  scope : OverrideScope
  reason : String
  createdBy : String
  createdAt : Nat
  expiresAt : Nat
  isActive : Bool
deriving DecidableEq, Repr

def createPolicyOverride (now : Nat) (rand : String) (targetPolicyId : String)
    (scope : OverrideScope) (reason : String) (expiryDays : Int) :
    Except String PolicyOverride :=
  if strFalsy reason || (trimStr reason).data.length < 10 then
    .error "Override reason must be at least 10 characters."
  else if expiryDays > 30 then
    .error "Override expiry cannot exceed 30 days."
  else if expiryDays ≤ 0 then
    .error "Override expiry must be positive."
  else
    .ok
      { overrideId := "override-" ++ toString now ++ "-" ++ rand
        targetPolicyId
        scope
        reason := trimStr reason
        createdBy := "current-user"
        createdAt := now
        expiresAt := now + expiryDays.toNat * msPerDay
        isActive := true }

def isOverrideActive (now : Nat) (override : PolicyOverride) : Bool :=
  now < override.expiresAt

def getActivePolicyStatus (now : Nat) (policyStatus : PolicyStatus)
    (overrides : List PolicyOverride) : PolicyStatus :=
  if overrides.any (fun o => isOverrideActive now o) then
    .OVERRIDDEN
  else
    policyStatus

/-- The policy and override stores, as kept by the application
(learned policies and overrides live in separate lists; an override only
references its target policy by id). -/
structure PolicySystemState where
  policies : List LearnedPolicy
  overrides : List PolicyOverride
deriving Repr

/-- Creating an override through the store: appends the new override record
and touches nothing else. -/
def applyCreateOverride (st : PolicySystemState) (now : Nat) (rand : String)
    (targetPolicyId : String) (scope : OverrideScope) (reason : String)
    (expiryDays : Int) : Except String PolicySystemState :=
  match createPolicyOverride now rand targetPolicyId scope reason expiryDays with
  | .error e => .error e
  | .ok o => .ok { st with overrides := st.overrides ++ [o] }

/-! ## Ethical veto (`src/logic/persona/ethicalEvaluation.ts`) -/

structure EthicalFrame where
  eappPrinciples : List String
  constraints : List String
  immutableCommitments : List String
deriving DecidableEq, Repr

structure PersonaIdentity where
  personaId : String
  createdAt : String
  authoredBy : String
  ethicalFrame : EthicalFrame
deriving DecidableEq, Repr

inductive EthicalVerdict | ETHICS_ALLOWED | ETHICS_BLOCKED
deriving DecidableEq, Repr

structure EthicalEvaluationResult where
  verdict : EthicalVerdict
  explanation : String
  violatedCommitments : List String
deriving DecidableEq, Repr

structure ProposedAction where
  actionType : String
  description : String
  targetResource : Option String
deriving DecidableEq, Repr

def prohibitionTerms : List String :=
  ["cannot", "never", "must not", "prohibited from", "not allowed", "forbidden"]

def extractKeywords (statement : String) : List String :=
  let lower := lowerStr statement
  let cleaned := replaceStr (replaceStr (replaceStr (replaceStr (replaceStr (replaceStr
    lower "cannot" "") "never" "") "must not" "") "not allowed" "") "prohibited from" "")
    "forbidden" ""
  ((splitWords cleaned).filter (fun w => w.data.length > 3)).filter
    (fun w => (["this", "that", "with", "from", "have"].contains w) = false)

def actionViolatesCommitment (action : ProposedAction) (commitment : String) : Bool :=
  let commitmentLower := lowerStr commitment
  let actionDescLower := lowerStr action.description
  let actionTypeLower := lowerStr action.actionType
  let isProhibition := prohibitionTerms.any (fun t => strIncludes commitmentLower t)
  if isProhibition = false then
    false
  else
    (extractKeywords commitment).any (fun k =>
      strIncludes actionDescLower k || strIncludes actionTypeLower k)

/-- Drops a leading case-insensitive occurrence of `pre` followed by at
least one whitespace character (JS `replace(/^pre\s+/i, "")`). -/
def dropLeadCI (s : String) (pre : String) : String :=
  let n := pre.data.length
  let head := s.data.take n
  let rest := s.data.drop n
  if head.map Char.toLower = pre.data ∧ (rest.take 1).any Char.isWhitespace then
    ⟨rest.dropWhile Char.isWhitespace⟩
  else
    s

def lowerFirstChar (s : String) : String :=
  match s.data with
  | [] => s
  | c :: rest => ⟨Char.toLower c :: rest⟩

def formatEthicalBlockReason (violation : String) : String :=
  let cleaned := dropLeadCI (dropLeadCI (dropLeadCI (dropLeadCI (dropLeadCI
    (trimStr violation) "cannot") "never") "must not") "not allowed to") "prohibited from"
  "This action conflicts with the agent\x27s ethical commitment to " ++
    lowerFirstChar cleaned ++ ". This restriction cannot be overridden."

def evaluateEthicalCompatibility (personaIdentity : PersonaIdentity)
    (proposedAction : ProposedAction) : EthicalEvaluationResult :=
  let violations :=
    (personaIdentity.ethicalFrame.immutableCommitments.filter
      (fun c => actionViolatesCommitment proposedAction c)) ++
    (personaIdentity.ethicalFrame.constraints.filter
      (fun c => actionViolatesCommitment proposedAction c))
  match violations with
  | [] =>
    { verdict := .ETHICS_ALLOWED
      explanation := "Action is compatible with agent\x27s ethical frame."
      violatedCommitments := [] }
  | v :: _ =>
    { verdict := .ETHICS_BLOCKED
      explanation := formatEthicalBlockReason v
      violatedCommitments := violations }

/-! ## Support lemmas for the string primitives -/

theorem charsLeadWith_append (n a b : List Char) (h : charsLeadWith n a = true) :
    charsLeadWith n (a ++ b) = true := by
  induction n generalizing a with
  | nil => simp [charsLeadWith]
  | cons c cs ih =>
    cases a with
    | nil => simp [charsLeadWith] at h
    | cons d ds =>
      simp only [charsLeadWith, Bool.and_eq_true] at h
      simp only [List.cons_append, charsLeadWith, Bool.and_eq_true]
      exact ⟨h.1, ih ds h.2⟩

theorem charsContain_nil_needle (h : List Char) : charsContain h [] = true := by
  cases h <;> simp [charsContain, charsLeadWith]

theorem charsContain_append_of_left (a b n : List Char) (h : charsContain a n = true) :
    charsContain (a ++ b) n = true := by
  induction a with
  | nil =>
    simp only [charsContain] at h
    cases n with
    | nil => simpa using charsContain_nil_needle b
    | cons c cs => simp [charsLeadWith] at h
  | cons c t ih =>
    simp only [charsContain, Bool.or_eq_true] at h
    simp only [List.cons_append, charsContain, Bool.or_eq_true]
    rcases h with h | h
    · exact Or.inl (charsLeadWith_append n (c :: t) b h)
    · exact Or.inr (ih h)

theorem charsContain_append_of_right (a b n : List Char) (h : charsContain b n = true) :
    charsContain (a ++ b) n = true := by
  induction a with
  | nil => simpa using h
  | cons c t ih =>
    simp only [List.cons_append, charsContain, Bool.or_eq_true]
    exact Or.inr ih

theorem strIncludes_append_of_left (a b n : String) (h : strIncludes a n = true) :
    strIncludes (a ++ b) n = true := by
  simp only [strIncludes, String.data_append]
  exact charsContain_append_of_left a.data b.data n.data h

theorem strIncludes_append_of_right (a b n : String) (h : strIncludes b n = true) :
    strIncludes (a ++ b) n = true := by
  simp only [strIncludes, String.data_append]
  exact charsContain_append_of_right a.data b.data n.data h

theorem lowerStr_append (a b : String) : lowerStr (a ++ b) = lowerStr a ++ lowerStr b := by
  show (⟨(a ++ b).data.map Char.toLower⟩ : String) = _
  rw [String.data_append, List.map_append]
  rfl

theorem strFalsy_append_of_right (a b : String) (h : strFalsy b = false) :
    strFalsy (a ++ b) = false := by
  simp only [strFalsy, String.data_append, List.isEmpty_eq_false_iff_exists_mem] at h ⊢
  obtain ⟨x, hx⟩ := h
  exact ⟨x, List.mem_append_right _ hx⟩

/-! ## Claim C1 -/

/-- Sample hierarchy with the claim's ceilings: org = 1, domain = 3, agent = 3. -/
def orgCeilingOne : Organization :=
  { id := "org-001", name := "Nebula Industries AI", status := .DRAFT
    authorityCeiling := 1, globalActions := [], escalationBaseline := .HUMAN_SENSITIVE
    communicationPosture := .BALANCED }

def domainCeilingThree : Domain :=
  { id := "dom-fin", organizationId := "org-001", name := "Financial Operations"
    mission := "Reconcile transactions", status := .READY, authorityCeiling := 3
    allowedActionCategories := ["DATA_ACCESS"], scope := "finance"
    escalationPosture := .HUMAN_SENSITIVE, constraints := [] }

def agentAutonomyThree : Agent :=
  { id := "agt-fin-recon", domainId := "dom-fin", name := "Reconciler X"
    role := "Transaction Matcher", executionType := .EXECUTION, autonomyLevel := 3
    executionSurface := .EXECUTE, escalationBehavior := .AUTO }

/-- C1: effective authority is the minimum across the present chain; in
particular raising a child ceiling above a parent (org = 1, domain = 3,
agent = 3) still yields effective level 1. -/
theorem c1_monotonic_inheritance :
    (∀ (org : Organization) (domain : Domain) (agent : Agent),
      (deriveAgentAuthority org domain agent).effectiveAuthorityLevel =
        min org.authorityCeiling (min domain.authorityCeiling agent.autonomyLevel)) ∧
    (∀ (org : Organization) (domain : Domain),
      (deriveDomainAuthority org domain).effectiveAuthorityLevel =
        min org.authorityCeiling domain.authorityCeiling) ∧
    (deriveAgentAuthority orgCeilingOne domainCeilingThree agentAutonomyThree).effectiveAuthorityLevel = 1 := by
  refine ⟨fun org domain agent => rfl, fun org domain => rfl, ?_⟩
  decide

/-! ## Claim C3 -/

/-- The fold rule exactly as the specification words it. -/
def specReadinessState (authPass surfPass escPass personaPass escalationRequired : Bool) :
    ExecutionReadinessState :=
  if authPass = false ∧ surfPass = false then .BLOCKED_HARD
  else if authPass = false ∨ surfPass = false ∨ escPass = false ∨ personaPass = false then
    .NOT_ELIGIBLE
  else if escalationRequired then .ELIGIBLE_PENDING_APPROVAL
  else .ELIGIBLE_AUTOMATIC

/-- The four canonical summary sentences of the specification. -/
def specCanonicalSummary : ExecutionReadinessState → String
  | .ELIGIBLE_AUTOMATIC =>
    "All preconditions are satisfied. This action could run autonomously if execution were enabled."
  | .ELIGIBLE_PENDING_APPROVAL =>
    "Execution is possible, but only with explicit human approval. This action cannot run autonomously."
  | .BLOCKED_HARD =>
    "Critical preconditions failed. Execution is not possible and is explicitly forbidden."
  | .NOT_ELIGIBLE =>
    "This agent is not permitted to perform this action. Execution is not appropriate in this context."

/-- C3: the readiness fold matches the specification's rule for every gate
combination and verdict, and the derived readiness always carries the
canonical summary sentence of its state. -/
theorem c3_readiness_fold :
    (∀ (gates : ReadinessGates) (verdict : RuntimeVerdict),
      deriveReadinessState gates verdict =
        specReadinessState gates.authorityAlignment.passed
          gates.actionSurfaceCompatibility.passed gates.escalationResolution.passed
          gates.personaAlignment.passed verdict.escalation.isSome) ∧
    (∀ (state : ExecutionReadinessState) (gates : ReadinessGates),
      generateReadinessSummary state gates = specCanonicalSummary state) ∧
    (∀ (agent : Agent) (doAction : DoAction) (authority : AuthorityResult)
        (verdict : RuntimeVerdict) (domain : Domain) (organization : Organization),
      (deriveExecutionReadiness agent doAction authority verdict domain organization).summary =
        specCanonicalSummary
          (deriveExecutionReadiness agent doAction authority verdict domain organization).state) := by
  refine ⟨?_, ?_, ?_⟩
  · intro gates verdict
    cases hA : gates.authorityAlignment.passed <;>
      cases hS : gates.actionSurfaceCompatibility.passed <;>
        cases hE : gates.escalationResolution.passed <;>
          cases hP : gates.personaAlignment.passed <;>
            cases hEsc : verdict.escalation <;>
              simp [deriveReadinessState, specReadinessState, hA, hS, hE, hP, hEsc]
  · intro state gates
    cases state <;> rfl
  · intro agent doAction authority verdict domain organization
    cases hState : deriveReadinessState
      { authorityAlignment := evaluateAuthorityGate doAction authority domain organization
        actionSurfaceCompatibility := evaluateActionSurfaceGate doAction agent
        escalationResolution := evaluateEscalationGate verdict agent
        personaAlignment := evaluatePersonaGate doAction agent } verdict <;>
      simp [deriveExecutionReadiness, generateReadinessSummary, specCanonicalSummary, hState]

/-! ## Claim C5 -/

/-- The impact tags the claim prescribes: each level is RESTRICT iff its
own ceiling is strictly below the level above it. -/
def claimReasonImpacts (org : Organization) (domain : Domain) (agent : Agent) :
    List ReasonImpact :=
  [ReasonImpact.ALLOW,
   if domain.authorityCeiling < org.authorityCeiling then .RESTRICT else .ALLOW,
   if agent.autonomyLevel < domain.authorityCeiling then .RESTRICT else .ALLOW]

def orgCeilingThree : Organization :=
  { orgCeilingOne with authorityCeiling := 3 }

def agentAutonomyOneExec : Agent :=
  { agentAutonomyThree with autonomyLevel := 1 }

/-- C5 fails on the code: for org ceiling 3, domain ceiling 3 and an
EXECUTE/EXECUTION agent with autonomy 1, the claim demands a RESTRICT tag
on the Agent step (1 < 3), yet the derivation tags it ALLOW. -/
theorem c5_claim_counterexample :
    (deriveAgentAuthority orgCeilingThree domainCeilingThree agentAutonomyOneExec).reasoning.map
        (fun step => step.impact) ≠
      claimReasonImpacts orgCeilingThree domainCeilingThree agentAutonomyOneExec ∧
    (deriveAgentAuthority orgCeilingThree domainCeilingThree agentAutonomyOneExec).reasoning.map
        (fun step => step.impact) = [.ALLOW, .ALLOW, .ALLOW] ∧
    agentAutonomyOneExec.autonomyLevel < domainCeilingThree.authorityCeiling := by
  refine ⟨?_, by decide, by decide⟩
  decide

/-- C5 amended: the Organization step is always ALLOW and the Domain step is
RESTRICT iff the domain ceiling is strictly below the organization ceiling
(in both the domain-level and agent-level derivations), but the Agent step
is RESTRICT iff the agent's autonomy is NOT below `min(org, domain)` and the
agent has a restricted surface (READ/WRITE) or a restricted type
(ADVISORY/DECISION); an autonomy level below the chain minimum leaves the
step tagged ALLOW. -/
theorem c5_reason_impacts :
    (∀ (org : Organization), (deriveOrganizationAuthority org).reasoning.map
      (fun step => step.impact) = [.ALLOW]) ∧
    (∀ (org : Organization) (domain : Domain),
      (deriveDomainAuthority org domain).reasoning.map (fun step => step.impact) =
        [.ALLOW,
         if domain.authorityCeiling < org.authorityCeiling then .RESTRICT else .ALLOW]) ∧
    (∀ (org : Organization) (domain : Domain) (agent : Agent),
      (deriveAgentAuthority org domain agent).reasoning.map (fun step => step.impact) =
        [.ALLOW,
         if domain.authorityCeiling < org.authorityCeiling then .RESTRICT else .ALLOW,
         if min org.authorityCeiling domain.authorityCeiling ≤ agent.autonomyLevel ∧
             (agent.executionSurface ≠ .EXECUTE ∨ agent.executionType ≠ .EXECUTION) then
           .RESTRICT
         else .ALLOW]) := by
  refine ⟨fun org => rfl, ?_, ?_⟩
  · intro org domain
    by_cases h : domain.authorityCeiling < org.authorityCeiling <;>
      simp [deriveDomainAuthority, h]
  · intro org domain agent
    have hbase : ¬ agent.autonomyLevel <
        min org.authorityCeiling (min domain.authorityCeiling agent.autonomyLevel) := by
      have : min org.authorityCeiling (min domain.authorityCeiling agent.autonomyLevel) ≤
          agent.autonomyLevel :=
        le_trans (min_le_right _ _) (min_le_right _ _)
      omega
    by_cases ha : agent.autonomyLevel < min org.authorityCeiling domain.authorityCeiling
    · have ha' : ¬ min org.authorityCeiling domain.authorityCeiling ≤ agent.autonomyLevel :=
        not_le.mpr ha
      by_cases hd : domain.authorityCeiling < org.authorityCeiling <;>
        simp [deriveAgentAuthority, agentReasonStep, hbase, ha, ha', hd]
    · have ha' : min org.authorityCeiling domain.authorityCeiling ≤ agent.autonomyLevel :=
        not_lt.mp ha
      by_cases hd : domain.authorityCeiling < org.authorityCeiling <;>
        cases hs : agent.executionSurface <;> cases ht : agent.executionType <;>
          simp [deriveAgentAuthority, agentReasonStep, hbase, ha, ha', hd, hs, ht]

/-! ## Claim C6 -/

/-- The type-check of the claim: ADVISORY may only do DATA_ACCESS/REPORTING,
DECISION may not do EXECUTION/OPERATIONS, EXECUTION is unrestricted. -/
def claimTypePermits (category : DoActionCategory) (execType : ExecutionType) : Bool :=
  match execType with
  | .ADVISORY => category == .DATA_ACCESS || category == .REPORTING
  | .DECISION => !(category == .EXECUTION || category == .OPERATIONS)
  | .EXECUTION => true

/-- The per-action rule exactly as the claim words it: surface check, then
type check, then the authority band (at requirement ALLOWED, exactly one
below RESTRICTED, further below BLOCKED). -/
def claimRuleState (requiredSurface : ExecutionSurface) (category : DoActionCategory)
    (requiredAuthority : Int) (agentSurface : ExecutionSurface)
    (agentType : ExecutionType) (effective : Int) : DoActionState :=
  if surfaceHierarchy agentSurface < surfaceHierarchy requiredSurface then .BLOCKED
  else if claimTypePermits category agentType = false then .BLOCKED
  else if effective ≥ requiredAuthority then .ALLOWED
  else if effective = requiredAuthority - 1 then .RESTRICTED
  else .BLOCKED

theorem checkExecutionSurface_allowed (r s : ExecutionSurface) :
    (checkExecutionSurface r s).allowed = !decide (surfaceHierarchy s < surfaceHierarchy r) := by
  cases r <;> cases s <;> rfl

theorem checkExecutionType_allowed (c : DoActionCategory) (t : ExecutionType) :
    (checkExecutionType c t).allowed = claimTypePermits c t := by
  cases c <;> cases t <;> rfl

theorem checkAuthorityLevel_allowed (r e : Int) :
    (checkAuthorityLevel r e).allowed = decide (e ≥ r) := by
  unfold checkAuthorityLevel
  split_ifs <;> simp_all

theorem checkAuthorityLevel_restricted (r e : Int) :
    (checkAuthorityLevel r e).restricted = (!decide (e ≥ r) && decide (e = r - 1)) := by
  unfold checkAuthorityLevel
  split_ifs <;> simp_all

def agentWriteExec : Agent :=
  { agentAutonomyThree with executionSurface := .WRITE }

def authorityZero : AuthorityResult :=
  { effectiveAuthorityLevel := 0, authoritySourcePath := [], blockedActions := []
    reasoning := [] }

/-- C6 fails on the action-surface derivation: for a WRITE/EXECUTION agent
with effective authority 0 the claim's rule for Write Data (required
surface WRITE, required authority 2: more than one below) demands BLOCKED,
yet the code returns RESTRICTED. -/
theorem c6_claim_counterexample :
    (deriveWriteDataAction agentWriteExec authorityZero).state = .RESTRICTED ∧
    claimRuleState .WRITE .DATA_MODIFICATION 2 agentWriteExec.executionSurface
      agentWriteExec.executionType authorityZero.effectiveAuthorityLevel = .BLOCKED := by
  constructor <;> decide

/-- C6 amended: the do-action derivation (`deriveActionState`) follows the
claimed three-check rule exactly for every template, agent and authority;
in the action-surface derivation, MAKE_DECISIONS also follows it (required
surface READ, required authority 2), but WRITE_DATA (required authority 2)
and EXECUTE_ACTIONS (required authority 3) collapse the whole authority
shortfall to RESTRICTED instead of distinguishing one-below (RESTRICTED)
from further-below (BLOCKED); READ_DATA and ESCALATE_HUMAN are always
ALLOWED. -/
theorem c6_action_state_rules :
    (∀ (t : ActionTemplate) (agent : Agent) (authority : AuthorityResult),
      (deriveActionState t agent authority).state =
        claimRuleState t.requiredSurface t.category t.requiredAuthority
          agent.executionSurface agent.executionType authority.effectiveAuthorityLevel) ∧
    (∀ (agent : Agent) (authority : AuthorityResult),
      (deriveWriteDataAction agent authority).state =
        (if surfaceHierarchy agent.executionSurface < surfaceHierarchy .WRITE then .BLOCKED
         else if claimTypePermits .DATA_MODIFICATION agent.executionType = false then .BLOCKED
         else if authority.effectiveAuthorityLevel ≥ 2 then .ALLOWED else .RESTRICTED)) ∧
    (∀ (agent : Agent) (authority : AuthorityResult),
      (deriveExecuteActionsAction agent authority).state =
        (if surfaceHierarchy agent.executionSurface < surfaceHierarchy .EXECUTE then .BLOCKED
         else if claimTypePermits .EXECUTION agent.executionType = false then .BLOCKED
         else if authority.effectiveAuthorityLevel ≥ 3 then .ALLOWED else .RESTRICTED)) ∧
    (∀ (agent : Agent) (authority : AuthorityResult),
      (deriveMakeDecisionsAction agent authority).state =
        claimRuleState .READ .DECISION_MAKING 2 agent.executionSurface
          agent.executionType authority.effectiveAuthorityLevel) ∧
    (∀ (agent : Agent) (authority : AuthorityResult),
      (deriveReadDataAction agent authority).state = .ALLOWED ∧
      (deriveEscalateHumanAction agent authority).state = .ALLOWED) := by
  refine ⟨?_, ?_, ?_, ?_, ?_⟩
  · intro t agent authority
    simp only [deriveActionState, claimRuleState, mkDoAction, checkExecutionSurface_allowed,
      checkExecutionType_allowed, checkAuthorityLevel_allowed, checkAuthorityLevel_restricted]
    by_cases hS : surfaceHierarchy agent.executionSurface < surfaceHierarchy t.requiredSurface <;>
      by_cases hT : claimTypePermits t.category agent.executionType = false <;>
        by_cases h1 : authority.effectiveAuthorityLevel ≥ t.requiredAuthority <;>
          by_cases h2 : authority.effectiveAuthorityLevel = t.requiredAuthority - 1 <;>
            simp [hS, hT, h1, h2]
  · intro agent authority
    rcases lt_or_le authority.effectiveAuthorityLevel 2 with h1 | h1
    · have h1' : ¬ authority.effectiveAuthorityLevel ≥ 2 := not_le.mpr h1
      cases hs : agent.executionSurface <;> cases ht : agent.executionType <;>
        simp [deriveWriteDataAction, claimTypePermits, surfaceHierarchy, hs, ht, h1, h1']
    · have h1' : ¬ authority.effectiveAuthorityLevel < 2 := not_lt.mpr h1
      cases hs : agent.executionSurface <;> cases ht : agent.executionType <;>
        simp [deriveWriteDataAction, claimTypePermits, surfaceHierarchy, hs, ht, h1, h1']
  · intro agent authority
    rcases lt_or_le authority.effectiveAuthorityLevel 3 with h1 | h1
    · have h1' : ¬ authority.effectiveAuthorityLevel ≥ 3 := not_le.mpr h1
      cases hs : agent.executionSurface <;> cases ht : agent.executionType <;>
        simp [deriveExecuteActionsAction, claimTypePermits, surfaceHierarchy, hs, ht, h1, h1']
    · have h1' : ¬ authority.effectiveAuthorityLevel < 3 := not_lt.mpr h1
      cases hs : agent.executionSurface <;> cases ht : agent.executionType <;>
        simp [deriveExecuteActionsAction, claimTypePermits, surfaceHierarchy, hs, ht, h1, h1']
  · intro agent authority
    have hone : ((1 : Int) = 2 - 1) := by omega
    rcases lt_or_le authority.effectiveAuthorityLevel 1 with h1 | h1
    · have ha : ¬ authority.effectiveAuthorityLevel ≥ 2 := by omega
      have hb : ¬ authority.effectiveAuthorityLevel = 2 - 1 := by omega
      have hb' : ¬ authority.effectiveAuthorityLevel = 1 := by omega
      cases hs : agent.executionSurface <;> cases ht : agent.executionType <;>
        simp [deriveMakeDecisionsAction, claimRuleState, claimTypePermits, surfaceHierarchy,
          hs, ht, h1, ha, hb, hb', show authority.effectiveAuthorityLevel < 2 from by omega]
    · rcases lt_or_le authority.effectiveAuthorityLevel 2 with h2 | h2
      · have ha : ¬ authority.effectiveAuthorityLevel ≥ 2 := by omega
        have hb : authority.effectiveAuthorityLevel = 2 - 1 := by omega
        have hb' : authority.effectiveAuthorityLevel = 1 := by omega
        have hc : ¬ authority.effectiveAuthorityLevel < 1 := by omega
        cases hs : agent.executionSurface <;> cases ht : agent.executionType <;>
          simp [deriveMakeDecisionsAction, claimRuleState, claimTypePermits, surfaceHierarchy,
            hs, ht, h2, ha, hb, hb', hc]
      · have ha : authority.effectiveAuthorityLevel ≥ 2 := h2
        have hb : ¬ authority.effectiveAuthorityLevel < 1 := by omega
        have hc : ¬ authority.effectiveAuthorityLevel < 2 := by omega
        have hd : ¬ authority.effectiveAuthorityLevel = 1 := by omega
        cases hs : agent.executionSurface <;> cases ht : agent.executionType <;>
          simp [deriveMakeDecisionsAction, claimRuleState, claimTypePermits, surfaceHierarchy,
            hs, ht, ha, hb, hc, hd]
  · intro agent authority
    exact ⟨rfl, by cases h : agent.escalationBehavior <;> simp [deriveEscalateHumanAction, h]⟩

/-! ## Claim C7 -/

def doActionDeployProd : DoAction :=
  { id := "ops_deploy_production", verbPhrase := "Deploy to production"
    category := .EXECUTION, requiredAuthority := 3, requiredSurface := .EXECUTE
    state := .BLOCKED
    reason := "This agent is not configured to execute actions." }

def verdictBlockedSample : RuntimeVerdict :=
  deriveRuntimeVerdict 0 agentWriteExec doActionDeployProd authorityZero
    domainCeilingThree orgCeilingThree

def gateFailAuthority : GateResult :=
  { passed := false
    reason := "This action requires authority level 3, but effective authority is 0." }

def gateFailSurface : GateResult :=
  { passed := false
    reason := "This action requires EXECUTE surface, but agent has WRITE." }

def gatePassEscalation : GateResult :=
  { passed := true, reason := "No escalation required for this action." }

def gatePassPersona : GateResult :=
  { passed := true, reason := "Persona alignment check passed (EAPP integration pending)." }

def readinessBlockedHard : ExecutionReadiness :=
  { state := .BLOCKED_HARD
    gates :=
      { authorityAlignment := gateFailAuthority
        actionSurfaceCompatibility := gateFailSurface
        escalationResolution := gatePassEscalation
        personaAlignment := gatePassPersona }
    summary :=
      "Critical preconditions failed. Execution is not possible and is explicitly forbidden." }

/-- C7 fails on the code: `createStagedAction` performs no readiness check,
so even for a BLOCKED_HARD readiness it happily constructs a STAGED action
(only `canStageAction`, consulted separately by the caller, refuses). -/
theorem c7_claim_counterexample :
    readinessBlockedHard.state = .BLOCKED_HARD ∧
    canStageAction doActionDeployProd readinessBlockedHard = false ∧
    (createStagedAction 0 "r" agentWriteExec doActionDeployProd verdictBlockedSample
      readinessBlockedHard authorityZero).state = .STAGED := by
  refine ⟨rfl, rfl, rfl⟩

/-- C7 amended: the staging-eligibility check `canStageAction` refuses
exactly the BLOCKED_HARD readiness state and accepts the other three, while
`createStagedAction` itself is unconditional and always constructs a
snapshot in initial state STAGED; the readiness gate is enforced only by
the caller consulting `canStageAction` before constructing. -/
theorem c7_staging_rules :
    (∀ (doAction : DoAction) (readiness : ExecutionReadiness),
      canStageAction doAction readiness = true ↔ readiness.state ≠ .BLOCKED_HARD) ∧
    (∀ (now : Nat) (rand : String) (agent : Agent) (doAction : DoAction)
        (verdict : RuntimeVerdict) (readiness : ExecutionReadiness)
        (authority : AuthorityResult),
      (createStagedAction now rand agent doAction verdict readiness authority).state =
        .STAGED) := by
  constructor
  · intro doAction readiness
    unfold canStageAction
    split_ifs with h <;> simp [h]
  · intro now rand agent doAction verdict readiness authority
    rfl

/-! ## Claim C4 -/

/-- C4: the code itself advertises determinism (`guarantees.deterministic`),
but `deriveRuntimeVerdict` embeds the wall clock in `verdictId` (via
`Date.now()` in `generateVerdictId`) and in `evaluatedAt`, so two calls
with identical agent/action/authority/domain/organization inputs made at
different clock readings produce different verdicts. -/
theorem c4_verdict_wallclock :
    (deriveRuntimeVerdict 0 agentWriteExec doActionDeployProd authorityZero
      domainCeilingThree orgCeilingThree).guarantees.deterministic = true ∧
    (deriveRuntimeVerdict 0 agentWriteExec doActionDeployProd authorityZero
        domainCeilingThree orgCeilingThree).verdictId ≠
      (deriveRuntimeVerdict 1 agentWriteExec doActionDeployProd authorityZero
        domainCeilingThree orgCeilingThree).verdictId ∧
    deriveRuntimeVerdict 0 agentWriteExec doActionDeployProd authorityZero
        domainCeilingThree orgCeilingThree ≠
      deriveRuntimeVerdict 1 agentWriteExec doActionDeployProd authorityZero
        domainCeilingThree orgCeilingThree := by
  refine ⟨rfl, by decide, by decide⟩

/-! ## Claim C8 -/

/-- C8 fails in one corner: when the policy's own lifecycle status is
already OVERRIDDEN and no override is active (here: no override exists at
all), `getActivePolicyStatus` still returns OVERRIDDEN, so "returns
OVERRIDDEN iff at least one override is currently active" does not hold
for every lifecycle status. -/
theorem c8_claim_counterexample :
    getActivePolicyStatus 5 .OVERRIDDEN [] = .OVERRIDDEN ∧
    ([] : List PolicyOverride).any (fun o => isOverrideActive 5 o) = false := by
  exact ⟨rfl, rfl⟩

/-- C8 amended: creating an override never changes any stored policy
record; `getActivePolicyStatus` returns OVERRIDDEN iff some supplied
override is currently active — judged by the current time being strictly
before its `expiresAt` — or the policy's own lifecycle status is already
OVERRIDDEN, and otherwise returns the policy's own lifecycle status; the
stored `isActive` flag plays no role, so the effective status reverts
automatically once all overrides expire. -/
theorem c8_override_status :
    (∀ (st : PolicySystemState) (now : Nat) (rand targetPolicyId : String)
        (scope : OverrideScope) (reason : String) (expiryDays : Int),
      match applyCreateOverride st now rand targetPolicyId scope reason expiryDays with
      | .ok st' => st'.policies = st.policies
      | .error _ => True) ∧
    (∀ (now : Nat) (status : PolicyStatus) (overrides : List PolicyOverride),
      getActivePolicyStatus now status overrides = .OVERRIDDEN ↔
        ((∃ o ∈ overrides, now < o.expiresAt) ∨ status = .OVERRIDDEN)) ∧
    (∀ (now : Nat) (status : PolicyStatus) (overrides : List PolicyOverride) (b : Bool),
      getActivePolicyStatus now status
          (overrides.map (fun o => { o with isActive := b })) =
        getActivePolicyStatus now status overrides) := by
  refine ⟨?_, ?_, ?_⟩
  · intro st now rand targetPolicyId scope reason expiryDays
    unfold applyCreateOverride
    cases hc : createPolicyOverride now rand targetPolicyId scope reason expiryDays <;> simp
  · intro now status overrides
    unfold getActivePolicyStatus
    cases h : overrides.any (fun o => isOverrideActive now o)
    · simp only [h, Bool.false_eq_true, if_false]
      constructor
      · intro hs
        exact Or.inr hs
      · rintro (⟨o, ho, hlt⟩ | hs)
        · have hno := List.any_eq_false.mp h o ho
          simp only [isOverrideActive, decide_eq_true_eq] at hno
          omega
        · exact hs
    · simp only [h, if_true]
      rw [List.any_eq_true] at h
      obtain ⟨o, ho, hact⟩ := h
      simp only [true_iff, iff_true]
      exact Or.inl ⟨o, ho, by simpa [isOverrideActive] using hact⟩
  · intro now status overrides b
    have hsame : ∀ o : PolicyOverride,
        isOverrideActive now { o with isActive := b } = isOverrideActive now o :=
      fun o => rfl
    unfold getActivePolicyStatus
    rw [List.any_map]
    simp [Function.comp, hsame]

/-! ## Claim C9 -/

/-- The ethical veto as the specification words it: every immutable
commitment and operational constraint is scanned; the statements that are
prohibitions with a keyword hit against the action's text are the
violations; the first violation found supplies the fixed-template
explanation, otherwise the action is ethically allowed. -/
def specEthicalEvaluation (personaIdentity : PersonaIdentity)
    (proposedAction : ProposedAction) : EthicalEvaluationResult :=
  let scanned := personaIdentity.ethicalFrame.immutableCommitments ++
    personaIdentity.ethicalFrame.constraints
  match scanned.filter (fun st => actionViolatesCommitment proposedAction st) with
  | [] =>
    { verdict := .ETHICS_ALLOWED
      explanation := "Action is compatible with agent\x27s ethical frame."
      violatedCommitments := [] }
  | v :: rest =>
    { verdict := .ETHICS_BLOCKED
      explanation := formatEthicalBlockReason v
      violatedCommitments := v :: rest }

theorem actionViolates_iff (a : ProposedAction) (st : String) :
    actionViolatesCommitment a st = true ↔
      (prohibitionTerms.any (fun t => strIncludes (lowerStr st) t) = true ∧
       ∃ k ∈ extractKeywords st,
         (strIncludes (lowerStr a.description) k ||
          strIncludes (lowerStr a.actionType) k) = true) := by
  unfold actionViolatesCommitment
  cases h : prohibitionTerms.any (fun t => strIncludes (lowerStr st) t) <;>
    simp [h, List.any_eq_true]

/-- C9: the ethical veto blocks exactly when some commitment or constraint
is a prohibition statement one of whose remaining keywords occurs in the
action's description or action type, and the whole result coincides with
the specification-side evaluation (first-violation template included). -/
theorem c9_ethical_veto :
    ∀ (personaIdentity : PersonaIdentity) (proposedAction : ProposedAction),
      evaluateEthicalCompatibility personaIdentity proposedAction =
        specEthicalEvaluation personaIdentity proposedAction ∧
      ((evaluateEthicalCompatibility personaIdentity proposedAction).verdict =
          .ETHICS_BLOCKED ↔
        ∃ st ∈ personaIdentity.ethicalFrame.immutableCommitments ++
            personaIdentity.ethicalFrame.constraints,
          prohibitionTerms.any (fun t => strIncludes (lowerStr st) t) = true ∧
          ∃ k ∈ extractKeywords st,
            (strIncludes (lowerStr proposedAction.description) k ||
             strIncludes (lowerStr proposedAction.actionType) k) = true) := by
  intro personaIdentity proposedAction
  have hfa : (personaIdentity.ethicalFrame.immutableCommitments ++
      personaIdentity.ethicalFrame.constraints).filter
        (fun st => actionViolatesCommitment proposedAction st) =
      (personaIdentity.ethicalFrame.immutableCommitments.filter
        (fun c => actionViolatesCommitment proposedAction c)) ++
      (personaIdentity.ethicalFrame.constraints.filter
        (fun c => actionViolatesCommitment proposedAction c)) :=
    List.filter_append _ _
  constructor
  · simp only [evaluateEthicalCompatibility, specEthicalEvaluation, hfa]
    rcases hl : (personaIdentity.ethicalFrame.immutableCommitments.filter
        (fun c => actionViolatesCommitment proposedAction c)) ++
      (personaIdentity.ethicalFrame.constraints.filter
        (fun c => actionViolatesCommitment proposedAction c)) with _ | ⟨v, rest⟩ <;>
      simp [hl]
  · rcases hl : (personaIdentity.ethicalFrame.immutableCommitments.filter
        (fun c => actionViolatesCommitment proposedAction c)) ++
      (personaIdentity.ethicalFrame.constraints.filter
        (fun c => actionViolatesCommitment proposedAction c)) with _ | ⟨v, rest⟩
    · simp only [evaluateEthicalCompatibility, hl]
      constructor
      · intro hcontra
        cases hcontra
      · rintro ⟨st, hmem, hcond⟩
        have hviol : actionViolatesCommitment proposedAction st = true :=
          (actionViolates_iff proposedAction st).mpr hcond
        have hnil : (personaIdentity.ethicalFrame.immutableCommitments ++
            personaIdentity.ethicalFrame.constraints).filter
              (fun st => actionViolatesCommitment proposedAction st) = [] := by
          rw [hfa, hl]
        have := List.filter_eq_nil_iff.mp hnil st hmem
        simp [hviol] at this
    · simp only [evaluateEthicalCompatibility, hl, true_iff, iff_true]
      have hv : v ∈ (personaIdentity.ethicalFrame.immutableCommitments ++
          personaIdentity.ethicalFrame.constraints).filter
            (fun st => actionViolatesCommitment proposedAction st) := by
        rw [hfa, hl]
        exact List.mem_cons_self v rest
      have hv' := List.mem_filter.mp hv
      exact ⟨v, hv'.1, (actionViolates_iff proposedAction v).mp hv'.2⟩


/-! ## Claim C2 -/

theorem trimStr_of_empty (s : String) (h : strFalsy s = true) : (trimStr s).data = [] := by
  simp only [strFalsy, List.isEmpty_iff] at h
  simp [trimStr, h]

theorem checkDeclaredIntent_passed (p : PolicyChangeProposal) :
    (checkDeclaredIntent p).passed = true ↔
      10 ≤ (trimStr p.humanJustification).data.length := by
  unfold checkDeclaredIntent
  split_ifs with hA hB
  · simp only [Bool.false_eq_true, false_iff]
    rcases Bool.or_eq_true_iff.mp hA with h | h
    · have := trimStr_of_empty p.humanJustification h
      simp [this]
    · simp only [strFalsy, List.isEmpty_iff] at h
      simp [h]
  · simp only [Bool.false_eq_true, false_iff]
    omega
  · simp only [true_iff]
    omega

theorem deriveLearnedPolicy_isSome_iff (now : Nat) (rand : String)
    (p : PolicyChangeProposal) :
    (deriveLearnedPolicy now rand p).isSome = true ↔
      (p.status = .CONFIRMED ∧ (validateEAPPCompliance p).passed = true ∧
       (validateLPSBoundaries p).valid = true ∧ (validateMonotonicity p).valid = true) := by
  unfold deriveLearnedPolicy
  by_cases h1 : p.status = .CONFIRMED
  · by_cases h2 : (validateEAPPCompliance p).passed = false
    · simp [h1, h2]
    · by_cases h3 : (validateLPSBoundaries p).valid = false
      · simp [h1, h2, h3]
      · by_cases h4 : (validateMonotonicity p).valid = false
        · simp [h1, h2, h3, h4]
        · have h2' : (validateEAPPCompliance p).passed = true := by simpa using h2
          have h3' : (validateLPSBoundaries p).valid = true := by simpa using h3
          have h4' : (validateMonotonicity p).valid = true := by simpa using h4
          simp [h1, h2', h3', h4']
  · simp [h1]

theorem deriveLearnedPolicy_some_lifecycle (now : Nat) (rand : String)
    (p : PolicyChangeProposal) (pol : LearnedPolicy)
    (h : deriveLearnedPolicy now rand p = some pol) :
    pol.lifecycle = createPolicyLifecycle now (generateLearnedPolicyId now rand) 90 180 := by
  unfold deriveLearnedPolicy at h
  simp only [] at h
  split at h
  · simp at h
  · split at h
    · simp at h
    · split at h
      · simp at h
      · split at h
        · simp at h
        · injection h with h'
          subst h'
          rfl

/-- C2: `deriveLearnedPolicy` yields a policy exactly when the proposal is
CONFIRMED and the EAPP, LPS and monotonicity validators all pass; every
returned policy carries a lifecycle with reviewIntervalDays 90, expiry 180
days after creation, status ACTIVE, no previous review, and an expiry
strictly after creation. -/
theorem c2_learned_policy_gating :
    ∀ (now : Nat) (rand : String) (proposal : PolicyChangeProposal),
      ((deriveLearnedPolicy now rand proposal).isSome = true ↔
        (proposal.status = .CONFIRMED ∧
         (validateEAPPCompliance proposal).passed = true ∧
         (validateLPSBoundaries proposal).valid = true ∧
         (validateMonotonicity proposal).valid = true)) ∧
      (deriveLearnedPolicy now rand proposal).all (fun pol =>
        (pol.lifecycle.reviewIntervalDays == 90) &&
        (pol.lifecycle.expiresAt == pol.lifecycle.createdAt + 180 * msPerDay) &&
        (pol.lifecycle.status == PolicyStatus.ACTIVE) &&
        (pol.lifecycle.lastReviewedAt == none) &&
        decide (pol.lifecycle.createdAt < pol.lifecycle.expiresAt)) = true := by
  intro now rand proposal
  refine ⟨deriveLearnedPolicy_isSome_iff now rand proposal, ?_⟩
  cases hd : deriveLearnedPolicy now rand proposal with
  | none => rfl
  | some pol =>
    have hl := deriveLearnedPolicy_some_lifecycle now rand proposal pol hd
    simp only [Option.all_some, hl, createPolicyLifecycle]
    simp [msPerDay]

/-! ## Claim C10 -/

theorem strIncludes_middle (a l b needle : String) (h : strIncludes l needle = true) :
    strIncludes (a ++ l ++ b) needle = true :=
  strIncludes_append_of_left _ _ _ (strIncludes_append_of_right _ _ _ h)

theorem strIncludes_lower_middle (a l b needle : String)
    (h : strIncludes (lowerStr l) needle = true) :
    strIncludes (lowerStr (a ++ l ++ b)) needle = true := by
  rw [lowerStr_append, lowerStr_append]
  exact strIncludes_append_of_left _ _ _ (strIncludes_append_of_right _ _ _ h)

theorem expandDirection_of_member (p : PolicyChangeProposal) (i : String)
    (hmem : i ∈ expandIndicators)
    (h : strIncludes (lowerStr p.afterState.description) i = true) :
    determineAuthorityDirection p = .EXPAND := by
  unfold determineAuthorityDirection
  have hany : expandIndicators.any
      (fun j => strIncludes (lowerStr p.afterState.description) j) = true :=
    List.any_eq_true.mpr ⟨i, hmem, h⟩
  simp [hany]

theorem deriveLearnedPolicy_none_of_expand (now : Nat) (rand : String)
    (p : PolicyChangeProposal) (hdir : determineAuthorityDirection p = .EXPAND) :
    deriveLearnedPolicy now rand p = none := by
  have hmono : (validateMonotonicity p).valid = false := by
    simp [validateMonotonicity, hdir]
  cases hd : deriveLearnedPolicy now rand p with
  | none => rfl
  | some pol =>
    have hs : (deriveLearnedPolicy now rand p).isSome = true := by simp [hd]
    rw [deriveLearnedPolicy_isSome_iff] at hs
    rw [hmono] at hs
    simp at hs

theorem deriveLearnedPolicy_none_change (now : Nat) (rand : String)
    (p : PolicyChangeProposal)
    (hstat : p.status = .CONFIRMED)
    (hct : p.proposedChangeType = .NONE)
    (hbefore : strFalsy p.beforeState.description = false)
    (hafter : p.afterState.description = "No change needed")
    (hsr : strFalsy p.systemReasoning = false)
    (hsrt : strFalsy (trimStr p.systemReasoning) = false) :
    (deriveLearnedPolicy now rand p).isSome = true ↔
      10 ≤ (trimStr p.humanJustification).data.length := by
  have hbounded : (checkBoundedAuthority p).passed = true := by
    simp [checkBoundedAuthority, hct]
  have hnc : strFalsy "No change needed" = false := by decide
  have hexp : (checkExplainability p).passed = true := by
    simp [checkExplainability, hbefore, hafter, hsr, hsrt, hnc]
  have hdrift : (checkDriftPrevention p).passed = true := by
    simp [checkDriftPrevention, hstat]
  have heapp : (validateEAPPCompliance p).passed = (checkDeclaredIntent p).passed := by
    simp [validateEAPPCompliance, hbounded, hexp, hdrift]
  have hlayers : determineAffectedLayers p = [LPSLayer.POLICY] := by
    simp [determineAffectedLayers, hct]
  have hlps : (validateLPSBoundaries p).valid = true := by
    have cid : [LPSLayer.POLICY].contains LPSLayer.IDENTITY = false := by decide
    have cma : [LPSLayer.POLICY].contains LPSLayer.MANDATE = false := by decide
    have cex : [LPSLayer.POLICY].contains LPSLayer.EXECUTION = false := by decide
    have cau : [LPSLayer.POLICY].contains LPSLayer.AUTHORITY = false := by decide
    unfold validateLPSBoundaries
    rw [hlayers]
    simp [cid, cma, cex, cau]
  have hdir : determineAuthorityDirection p = .MAINTAIN := by
    unfold determineAuthorityDirection
    rw [hafter]
    decide
  have hmono : (validateMonotonicity p).valid = true := by
    simp [validateMonotonicity, hdir]
  rw [deriveLearnedPolicy_isSome_iff]
  constructor
  · rintro ⟨_, hp, _, _⟩
    rw [heapp] at hp
    exact (checkDeclaredIntent_passed p).mp hp
  · intro hlen
    exact ⟨hstat, by rw [heapp]; exact (checkDeclaredIntent_passed p).mpr hlen, hlps, hmono⟩

theorem c10_core_none (n₂ : Nat) (r₂ : String) (prop : PolicyChangeProposal)
    (hst : prop.status = .PROPOSED)
    (hct : prop.proposedChangeType = .NONE)
    (hbefore : strFalsy prop.beforeState.description = false)
    (hafter : prop.afterState.description = "No change needed")
    (hsr : strFalsy prop.systemReasoning = false)
    (hsrt : strFalsy (trimStr prop.systemReasoning) = false) :
    (match confirmPolicyProposal n₂ r₂ prop with
     | .error _ => False
     | .ok result =>
       (result.2.isSome = true ↔ 10 ≤ (trimStr prop.humanJustification).data.length)) := by
  have hiff := deriveLearnedPolicy_none_change n₂ r₂
    { prop with status := ProposalStatus.CONFIRMED, confirmedAt := some (toString n₂) }
    rfl hct hbefore hafter hsr hsrt
  unfold confirmPolicyProposal
  rw [if_neg (by simp [hst])]
  simp only []
  cases hder : deriveLearnedPolicy n₂ r₂
      { prop with status := ProposalStatus.CONFIRMED, confirmedAt := some (toString n₂) } <;>
    rw [hder] at hiff <;> simpa using hiff

theorem c10_core_expand (n₂ : Nat) (r₂ : String) (prop : PolicyChangeProposal) (i : String)
    (hst : prop.status = .PROPOSED)
    (hmem : i ∈ expandIndicators)
    (hinc : strIncludes (lowerStr prop.afterState.description) i = true) :
    (match confirmPolicyProposal n₂ r₂ prop with
     | .error _ => False
     | .ok result =>
       result.2 = none ∧ determineAuthorityDirection result.1 = .EXPAND ∧
         strIncludes (lowerStr prop.afterState.description) i = true) := by
  have hdir : determineAuthorityDirection
      { prop with status := ProposalStatus.CONFIRMED, confirmedAt := some (toString n₂) } =
        .EXPAND :=
    expandDirection_of_member _ i hmem hinc
  have hnone := deriveLearnedPolicy_none_of_expand n₂ r₂
    { prop with status := ProposalStatus.CONFIRMED, confirmedAt := some (toString n₂) } hdir
  unfold confirmPolicyProposal
  rw [if_neg (by simp [hst])]
  simp only []
  rw [hnone]
  exact ⟨rfl, hdir, hinc⟩

/-- C10: a proposal derived by `derivePolicyChangeProposal` and then
confirmed learns a policy iff its change type is NONE and the trimmed human
justification has at least 10 characters; each substantive change type
generates an after-state containing its expansion indicator, is classified
EXPAND by the monotonicity direction check, and therefore never yields a
policy. -/
theorem c10_policy_pipeline :
    ∀ (n₁ n₂ : Nat) (r₁ r₂ : String) (intent : ApprovalIntent),
      (derivePolicyChangeProposal n₁ r₁ intent).elim True (fun prop =>
        match confirmPolicyProposal n₂ r₂ prop with
        | .error _ => False
        | .ok result =>
          match prop.proposedChangeType with
          | .NONE =>
            (result.2.isSome = true ↔ 10 ≤ (trimStr prop.humanJustification).data.length)
          | .AUTHORITY_ADJUSTMENT =>
            result.2 = none ∧ determineAuthorityDirection result.1 = .EXPAND ∧
              strIncludes (lowerStr prop.afterState.description) "would have elevated" = true
          | .ACTION_PERMISSION =>
            result.2 = none ∧ determineAuthorityDirection result.1 = .EXPAND ∧
              strIncludes (lowerStr prop.afterState.description) "permitted autonomously" = true
          | .ESCALATION_RULE =>
            result.2 = none ∧ determineAuthorityDirection result.1 = .EXPAND ∧
              strIncludes (lowerStr prop.afterState.description) "not require escalation" = true) := by
  intro n₁ n₂ r₁ r₂ intent
  by_cases hscope : intent.scope ≠ .POLICY_CHANGE
  · simp [derivePolicyChangeProposal, hscope]
  · unfold derivePolicyChangeProposal
    rw [if_neg hscope]
    simp only [Option.elim]
    cases hctv : analyzeRequiredChange intent.executionReadinessSnapshot
        intent.runtimeVerdictSnapshot <;>
      simp only [hctv, generatePolicyStates, generateSystemReasoning]
    · exact c10_core_expand n₂ r₂ _ "would have elevated" rfl (by decide)
        (strIncludes_lower_middle intent.agentName " would have elevated authority for "
          intent.actionName "would have elevated" (by decide))
    · exact c10_core_expand n₂ r₂ _ "permitted autonomously" rfl (by decide)
        (by rw [lowerStr_append]
            exact strIncludes_append_of_right _ _ _ (by decide))
    · exact c10_core_expand n₂ r₂ _ "not require escalation" rfl (by decide)
        (by rw [lowerStr_append]
            exact strIncludes_append_of_right _ _ _ (by decide))
    · exact c10_core_none n₂ r₂ _ rfl rfl
        (strFalsy_append_of_right _ " autonomously" (by decide)) rfl
        (show strFalsy "No policy change is required. The current system configuration already supports this action for autonomous execution. The approval was instance-specific only." = false by decide)
        (show strFalsy (trimStr "No policy change is required. The current system configuration already supports this action for autonomous execution. The approval was instance-specific only.") = false by decide)
